import Mathlib

/-!
Verification development for the wsjtx-js8call-autogrid repository
(autogrid.py).  The Python source is shallowly embedded: Python floats
are modelled as rationals, Python strings as Lean strings (lists of
characters), raised exceptions as Except values, mutable object state as
explicit state records, and network/process effects as oracle inputs and
event lists.
-/

attribute [local semireducible] Rat.add Rat.sub Rat.mul Rat.inv Rat.ofScientific

/-! Section 1: Python string and number primitives used by the source. -/

def pyIsSpace (c : Char) : Bool :=
  c = ' ' || c = '\t' || c = '\n' || c = '\r' || c = '\x0b' || c = '\x0c'

/-- Model of the Python str.strip() call (ASCII whitespace). -/
def pyStrip (s : String) : String :=
  String.mk (((s.toList.dropWhile pyIsSpace).reverse.dropWhile pyIsSpace).reverse)

/-- Model of the Python str.split(sep) call for a one-character separator. -/
def pySplit (sep : Char) (s : String) : List String :=
  (s.toList.splitOn sep).map String.mk

def pyStartsWith (s : String) (c : Char) : Bool :=
  match s.toList with
  | [] => false
  | c0 :: _ => c0 = c

def isAsciiDigit (c : Char) : Bool := '0' ≤ c && c ≤ '9'

def digitsToNat (cs : List Char) : ℕ :=
  cs.foldl (fun a c => a * 10 + (c.toNat - 48)) 0

/-- Model of Python int(s) on a string: optional sign, then decimal digits. -/
def pyParseNatL (cs : List Char) : Option ℕ :=
  if cs ≠ [] ∧ cs.all isAsciiDigit then some (digitsToNat cs) else none

def pyParseIntL (cs : List Char) : Option ℤ :=
  match cs with
  | '-' :: rest => (pyParseNatL rest).map (fun n => -(n : ℤ))
  | '+' :: rest => (pyParseNatL rest).map (fun n => (n : ℤ))
  | _ => (pyParseNatL cs).map (fun n => (n : ℤ))

def pyParseFloatCore (cs : List Char) : Option ℚ :=
  match cs.splitOn '.' with
  | [w] => if w ≠ [] ∧ w.all isAsciiDigit then some ((digitsToNat w : ℚ)) else none
  | [ip, fp] =>
    if (ip ++ fp) ≠ [] ∧ (ip ++ fp).all isAsciiDigit then
      some ((digitsToNat ip : ℚ) + (digitsToNat fp : ℚ) / (10 : ℚ) ^ fp.length)
    else none
  | _ => none

/-- Model of Python float(s) on a decimal string (exponent forms are not
used by NMEA fields and are not modelled). -/
def pyParseFloatL (cs : List Char) : Option ℚ :=
  match cs with
  | '-' :: rest => (pyParseFloatCore rest).map (fun v => -v)
  | '+' :: rest => pyParseFloatCore rest
  | _ => pyParseFloatCore cs

inductive PyErr where
  | valueError
  | indexError
deriving DecidableEq

def exceptDecEq {ε α : Type} [DecidableEq ε] [DecidableEq α] : DecidableEq (Except ε α)
  | Except.ok x, Except.ok y =>
    if h : x = y then isTrue (by rw [h]) else isFalse (by simp [h])
  | Except.ok _, Except.error _ => isFalse (by simp)
  | Except.error _, Except.ok _ => isFalse (by simp)
  | Except.error e, Except.error f =>
    if h : e = f then isTrue (by rw [h]) else isFalse (by simp [h])

instance {ε α : Type} [DecidableEq ε] [DecidableEq α] : DecidableEq (Except ε α) :=
  exceptDecEq

/-! Section 2: GridConverter.lat_lon_to_grid (autogrid.py lines 157-204). -/

def upperAlphabet : List Char :=
  ['A', 'B', 'C', 'D', 'E', 'F', 'G', 'H', 'I', 'J', 'K', 'L',
   'M', 'N', 'O', 'P', 'Q', 'R', 'S', 'T', 'U', 'V', 'W', 'X']

def lowerAlphabet : List Char :=
  ['a', 'b', 'c', 'd', 'e', 'f', 'g', 'h', 'i', 'j', 'k', 'l',
   'm', 'n', 'o', 'p', 'q', 'r', 's', 't', 'u', 'v', 'w', 'x']

/-- Python int() on a float: truncation toward zero.  Rat.floor is the
kernel-computable floor on rationals. -/
def pyInt (q : ℚ) : ℤ := if 0 ≤ q then q.floor else -(-q).floor

/-- Python float modulo: the result has the sign of the divisor. -/
def pyMod (a m : ℚ) : ℚ := a - m * ((a / m).floor : ℚ)

def pyStrNat (n : ℕ) : String := Nat.repr n

/-- Python string indexing; a non-negative index past the end raises
IndexError.  The indices passed by the source are provably non-negative,
so Python negative-index wrap-around is not modelled. -/
def pyListIndex (l : List Char) (i : ℕ) : Except PyErr Char :=
  match l.get? i with
  | some c => Except.ok c
  | none => Except.error PyErr.indexError

def lat_lon_to_grid (precision : ℕ) (lat lon : ℚ) : Except PyErr String :=
  if ¬(-90 ≤ lat ∧ lat ≤ 90) then Except.error PyErr.valueError
  else if ¬(-180 ≤ lon ∧ lon ≤ 180) then Except.error PyErr.valueError
  else
    match pyListIndex upperAlphabet (pyInt ((lon + 180) / 20)).toNat,
          pyListIndex upperAlphabet (pyInt ((lat + 90) / 10)).toNat with
    | Except.ok gridLonSq, Except.ok gridLatSq =>
      let base := String.mk [gridLonSq, gridLatSq]
          ++ pyStrNat (pyInt (pyMod ((lon + 180) / 2) 10)).toNat
          ++ pyStrNat (pyInt (pyMod (lat + 90) 10)).toNat
      if precision = 6 then
        match pyListIndex lowerAlphabet
                (pyInt ((((lon + 180) - (pyInt ((lon + 180) / 2) : ℚ) * 2) * 60) / 5)).toNat,
              pyListIndex lowerAlphabet
                (pyInt ((((lat + 90) - (pyInt (lat + 90) : ℚ)) * 60) / (5 / 2))).toNat with
        | Except.ok gridLonSub, Except.ok gridLatSub =>
          Except.ok (base ++ String.mk [gridLonSub, gridLatSub])
        | _, _ => Except.error PyErr.indexError
      else Except.ok base
    | _, _ => Except.error PyErr.indexError

def isUpperGridChar (c : Char) : Bool := 'A' ≤ c && c ≤ 'X'

def isLowerGridChar (c : Char) : Bool := 'a' ≤ c && c ≤ 'x'

def isDigitChar (c : Char) : Bool := '0' ≤ c && c ≤ '9'

/-- The regular expression [A-X]{2}[0-9]{2} from the spec. -/
def matchesGrid4 (g : String) : Bool :=
  match g.data with
  | [a, b, c, d] => isUpperGridChar a && isUpperGridChar b && isDigitChar c && isDigitChar d
  | _ => false

/-- The regular expression [A-X]{2}[0-9]{2}[a-x]{2} from the spec. -/
def matchesGrid6 (g : String) : Bool :=
  match g.data with
  | [a, b, c, d, e, f] =>
    isUpperGridChar a && isUpperGridChar b && isDigitChar c && isDigitChar d &&
      isLowerGridChar e && isLowerGridChar f
  | _ => false

def exceptIsOk : Except PyErr String → Bool
  | Except.ok _ => true
  | Except.error _ => false

/-! Section 3: NMEAParser (autogrid.py lines 207-531).  The UTC-time side
channel (last_utc_time) cannot raise (its helper catches internally) and
never influences the returned coordinates, so it is not modelled. -/

/-- Lines 380-388 of _convert_nmea_coord: locate the decimal point, split
two characters before it, parse both halves as floats. -/
def nmeaCoordRaw (coordStr : String) : Except PyErr ℚ :=
  let cs := coordStr.toList
  match cs.findIdx? (fun c => c = '.') with
  | none => Except.error PyErr.valueError
  | some dotPos =>
    if dotPos < 2 then Except.error PyErr.valueError
    else
      match pyParseFloatL (cs.take (dotPos - 2)), pyParseFloatL (cs.drop (dotPos - 2)) with
      | some degrees, some minutes => Except.ok (degrees + minutes / 60)
      | _, _ => Except.error PyErr.valueError

def _convert_nmea_coord (coordStr direction : String) : Except PyErr ℚ :=
  if coordStr = "" ∨ direction = "" then Except.error PyErr.valueError
  else
    match nmeaCoordRaw coordStr with
    | Except.ok dd => Except.ok (if direction = "S" ∨ direction = "W" then -dd else dd)
    | Except.error e => Except.error e

def _looks_like_lat (value : String) : Bool :=
  let cs := value.toList
  if cs = [] ∨ '.' ∉ cs then false
  else
    match cs.splitOn '.' with
    | [p0, p1] =>
      match pyParseIntL (p0.take (p0.length - 2)),
            pyParseFloatL (p0.drop (p0.length - 2) ++ '.' :: p1) with
      | some d, some m => decide (0 ≤ d ∧ d ≤ 90 ∧ 0 ≤ m ∧ m < 60)
      | _, _ => false
    | _ => false

def _looks_like_lon (value : String) : Bool :=
  let cs := value.toList
  if cs = [] ∨ '.' ∉ cs then false
  else
    match cs.splitOn '.' with
    | [p0, p1] =>
      match pyParseIntL (p0.take (p0.length - 2)),
            pyParseFloatL (p0.drop (p0.length - 2) ++ '.' :: p1) with
      | some d, some m => decide (0 ≤ d ∧ d ≤ 180 ∧ 0 ≤ m ∧ m < 60)
      | _, _ => false
    | _ => false

def _parse_gpgll (parts : List String) : Option (ℚ × ℚ) :=
  if parts.length < 7 then none
  else if parts.getD 6 "" ≠ "A" then none
  else
    match _convert_nmea_coord (parts.getD 1 "") (parts.getD 2 ""),
          _convert_nmea_coord (parts.getD 3 "") (parts.getD 4 "") with
    | Except.ok la, Except.ok lo => some (la, lo)
    | _, _ => none

def _parse_gpgga (parts : List String) : Option (ℚ × ℚ) :=
  if parts.length < 15 then none
  else if parts.getD 6 "" = "0" then none
  else
    match _convert_nmea_coord (parts.getD 2 "") (parts.getD 3 ""),
          _convert_nmea_coord (parts.getD 4 "") (parts.getD 5 "") with
    | Except.ok la, Except.ok lo => some (la, lo)
    | _, _ => none

def _parse_gprmc (parts : List String) : Option (ℚ × ℚ) :=
  if parts.length < 12 then none
  else if parts.getD 2 "" ≠ "A" then none
  else
    match _convert_nmea_coord (parts.getD 3 "") (parts.getD 4 ""),
          _convert_nmea_coord (parts.getD 5 "") (parts.getD 6 "") with
    | Except.ok la, Except.ok lo => some (la, lo)
    | _, _ => none

def _parse_gns (parts : List String) : Option (ℚ × ℚ) :=
  if parts.length < 6 then none
  else if parts.getD 2 "" = "" ∨ parts.getD 4 "" = "" then none
  else
    match _convert_nmea_coord (parts.getD 2 "") (parts.getD 3 ""),
          _convert_nmea_coord (parts.getD 4 "") (parts.getD 5 "") with
    | Except.ok la, Except.ok lo => some (la, lo)
    | _, _ => none

def _parse_bwc (parts : List String) : Option (ℚ × ℚ) :=
  if parts.length < 7 then none
  else if parts.getD 3 "" = "" ∨ parts.getD 5 "" = "" then none
  else
    match _convert_nmea_coord (parts.getD 3 "") (parts.getD 4 ""),
          _convert_nmea_coord (parts.getD 5 "") (parts.getD 6 "") with
    | Except.ok la, Except.ok lo => some (la, lo)
    | _, _ => none

def _parse_rmb (parts : List String) : Option (ℚ × ℚ) :=
  if parts.length < 10 then none
  else if parts.getD 6 "" = "" ∨ parts.getD 8 "" = "" then none
  else
    match _convert_nmea_coord (parts.getD 6 "") (parts.getD 7 ""),
          _convert_nmea_coord (parts.getD 8 "") (parts.getD 9 "") with
    | Except.ok la, Except.ok lo => some (la, lo)
    | _, _ => none

def _parse_wpl (parts : List String) : Option (ℚ × ℚ) :=
  if parts.length < 5 then none
  else if parts.getD 1 "" = "" ∨ parts.getD 3 "" = "" then none
  else
    match _convert_nmea_coord (parts.getD 1 "") (parts.getD 2 ""),
          _convert_nmea_coord (parts.getD 3 "") (parts.getD 4 "") with
    | Except.ok la, Except.ok lo => some (la, lo)
    | _, _ => none

/-- Inner loop of _parse_generic: scan indices j from a start value while
j+1 is in range, looking for a longitude-like field followed by E or W. -/
def genericInner (parts : List String) (latRaw latDir : String) (j : ℕ) : Option (ℚ × ℚ) :=
  if h : j + 1 < parts.length then
    if _looks_like_lon (parts.getD j "") ∧ (parts.getD (j+1) "" = "E" ∨ parts.getD (j+1) "" = "W") then
      match _convert_nmea_coord latRaw latDir,
            _convert_nmea_coord (parts.getD j "") (parts.getD (j+1) "") with
      | Except.ok la, Except.ok lo => some (la, lo)
      | _, _ => genericInner parts latRaw latDir (j + 1)
    else genericInner parts latRaw latDir (j + 1)
  else none
termination_by parts.length - j
decreasing_by
  all_goals omega

/-- Outer loop of _parse_generic: scan indices i looking for a
latitude-like field followed by N or S. -/
def genericOuter (parts : List String) (i : ℕ) : Option (ℚ × ℚ) :=
  if h : i < parts.length then
    if _looks_like_lat (parts.getD i "") ∧ i + 1 < parts.length then
      if parts.getD (i+1) "" = "N" ∨ parts.getD (i+1) "" = "S" then
        match genericInner parts (parts.getD i "") (parts.getD (i+1) "") (i + 2) with
        | some r => some r
        | none => genericOuter parts (i + 1)
      else genericOuter parts (i + 1)
    else genericOuter parts (i + 1)
  else none
termination_by parts.length - i
decreasing_by
  all_goals omega

def _parse_generic (parts : List String) : Option (ℚ × ℚ) :=
  genericOuter parts 0

def _parse_apb (parts : List String) : Option (ℚ × ℚ) :=
  _parse_generic parts

def _parse_gpvtg (_parts : List String) : Option (ℚ × ℚ) := none

/-- ZDA carries UTC date/time only; the position result is always None. -/
def _parse_zda (_parts : List String) : Option (ℚ × ℚ) := none

def parse_nmea_sentence (sentence : String) : Option (ℚ × ℚ) :=
  let s := pyStrip sentence
  if ¬ pyStartsWith s '$' then none
  else
    let parts := pySplit ',' s
    if parts.length < 6 then none
    else
      let t := parts.getD 0 ""
      if t = "$GPGLL" then _parse_gpgll parts
      else if t = "$GPGGA" then _parse_gpgga parts
      else if t = "$GPRMC" then _parse_gprmc parts
      else if t = "$GPGNS" ∨ t = "$GNGNS" then _parse_gns parts
      else if t = "$GPBWC" then _parse_bwc parts
      else if t = "$GPRMB" then _parse_rmb parts
      else if t = "$GPWPL" then _parse_wpl parts
      else if t = "$GPAPB" then _parse_apb parts
      else if t = "$GPVTG" then _parse_gpvtg parts
      else if t = "$GPZDA" then _parse_zda parts
      else _parse_generic parts

/-! Section 4: ApplicationCommunicator and the AutoGrid dispatch loop
(autogrid.py lines 866-1270).  Datagrams are byte lists, peer addresses
are abstracted to naturals, network send outcomes come from a Boolean
oracle consumed left to right via an attempt counter, and observable
actions (UDP/TCP sends, time.sleep calls) are recorded as events. -/

inductive Event where
  | wsjtxSend : String → Bool → Event
  | js8Send : String → Bool → Event
  | sleep : ℚ → Event
deriving DecidableEq

structure CommState where
  wsjtx_id : Option String
  wsjtx_last_grid : Option String
  js8call_last_grid : Option String
  wsjtx_last_addr : Option ℕ
  wsjtx_last_packet_time : Option ℚ
  wsjtx_pending_grid_update : Bool
  pending_grid_value : Option String
deriving DecidableEq

def MAGIC_NUMBER : ℕ := 0xadbccbda

def detection_timeout : ℚ := 30

/-- Python truthiness of an Optional[str]: None and the empty string are
falsy. -/
def truthyOptStr : Option String → Bool
  | none => false
  | some s => !(s == "")

/-- send_wsjtx_grid_update (lines 1042-1058).  Returns False without a
network attempt when the id or address is missing; otherwise one UDP
send is attempted whose outcome the oracle decides. -/
def send_wsjtx_grid_update (st : CommState) (grid : String) (ok : ℕ → Bool) (k : ℕ) :
    Bool × CommState × List Event × ℕ :=
  if ¬ truthyOptStr st.wsjtx_id = true ∨ st.wsjtx_last_addr = none then (false, st, [], k)
  else if ok k then
    (true, { st with wsjtx_last_grid := some grid }, [Event.wsjtxSend grid true], k + 1)
  else (false, st, [Event.wsjtxSend grid false], k + 1)

/-- send_js8call_grid_update (lines 1060-1099): one TCP send attempt. -/
def send_js8call_grid_update (st : CommState) (grid : String) (ok : ℕ → Bool) (k : ℕ) :
    Bool × CommState × List Event × ℕ :=
  if ok k then
    (true, { st with js8call_last_grid := some grid }, [Event.js8Send grid true], k + 1)
  else (false, st, [Event.js8Send grid false], k + 1)

/-- _send_pending_wsjtx_grid_update (lines 1126-1135): when a truthy
pending value exists, sleep 2 seconds, send it once, then clear the flag
and the value whatever the outcome. -/
def _send_pending_wsjtx_grid_update (st : CommState) (ok : ℕ → Bool) (k : ℕ) :
    CommState × List Event × ℕ :=
  if truthyOptStr st.pending_grid_value = true then
    let g := (st.pending_grid_value).getD ""
    let r := send_wsjtx_grid_update st g ok k
    ({ r.2.1 with wsjtx_pending_grid_update := false, pending_grid_value := none },
      Event.sleep 2 :: r.2.2.1, r.2.2.2)
  else (st, [], k)

/-- UTF-8 validity and decoding of a byte list, per the strict rules
Python's bytes.decode uses (continuation ranges, no overlongs, no
surrogates). -/
def utf8Decode : List ℕ → Option (List Char)
  | [] => some []
  | b :: rest =>
    if b < 0x80 then
      match utf8Decode rest with
      | some cs => some (Char.ofNat b :: cs)
      | none => none
    else if 0xC2 ≤ b ∧ b ≤ 0xDF then
      match rest with
      | b1 :: rest2 =>
        if 0x80 ≤ b1 ∧ b1 ≤ 0xBF then
          match utf8Decode rest2 with
          | some cs => some (Char.ofNat ((b - 0xC0) * 64 + (b1 - 0x80)) :: cs)
          | none => none
        else none
      | [] => none
    else if 0xE0 ≤ b ∧ b ≤ 0xEF then
      match rest with
      | b1 :: b2 :: rest3 =>
        if (0x80 ≤ b1 ∧ b1 ≤ 0xBF) ∧ (0x80 ≤ b2 ∧ b2 ≤ 0xBF) ∧
            (b = 0xE0 → 0xA0 ≤ b1) ∧ (b = 0xED → b1 ≤ 0x9F) then
          match utf8Decode rest3 with
          | some cs =>
            some (Char.ofNat ((b - 0xE0) * 4096 + (b1 - 0x80) * 64 + (b2 - 0x80)) :: cs)
          | none => none
        else none
      | _ => none
    else if 0xF0 ≤ b ∧ b ≤ 0xF4 then
      match rest with
      | b1 :: b2 :: b3 :: rest4 =>
        if (0x80 ≤ b1 ∧ b1 ≤ 0xBF) ∧ (0x80 ≤ b2 ∧ b2 ≤ 0xBF) ∧ (0x80 ≤ b3 ∧ b3 ≤ 0xBF) ∧
            (b = 0xF0 → 0x90 ≤ b1) ∧ (b = 0xF4 → b1 ≤ 0x8F) then
          match utf8Decode rest4 with
          | some cs =>
            some (Char.ofNat ((b - 0xF0) * 262144 + (b1 - 0x80) * 4096 +
              (b2 - 0x80) * 64 + (b3 - 0x80)) :: cs)
          | none => none
        else none
      | _ => none
    else none

/-- Big-endian 32-bit read, as struct.unpack with format >L does. -/
def beU32 (data : List ℕ) (off : ℕ) : ℕ :=
  data.getD off 0 * 16777216 + data.getD (off + 1) 0 * 65536 +
    data.getD (off + 2) 0 * 256 + data.getD (off + 3) 0

/-- The per-datagram part of check_heartbeats (lines 963-1032): drop
short packets, verify the magic number, fail the whole packet when a
declared id string is present but not valid UTF-8 (UnicodeDecodeError),
mark heartbeat (0) and status (1) packets as detections recording sender
address and time, fire a pending grid update, and capture the session id
from heartbeats. -/
def processPacket (st : CommState) (recv : Option (List ℕ × ℕ)) (now : ℚ)
    (ok : ℕ → Bool) (k : ℕ) : Bool × CommState × List Event × ℕ :=
  match recv with
  | none => (false, st, [], k)
  | some (data, addr) =>
    if data.length < 16 then (false, st, [], k)
    else if beU32 data 0 ≠ MAGIC_NUMBER then (false, st, [], k)
    else
      let pktType := beU32 data 8
      let idLen := beU32 data 12
      let idPresent : Bool := decide (0 < idLen) && decide (16 + idLen ≤ data.length)
      let idDecoded := utf8Decode ((data.drop 16).take idLen)
      if idPresent = true ∧ idDecoded = none then (false, st, [], k)
      else if pktType = 0 ∨ pktType = 1 then
        let stA := { st with wsjtx_last_addr := some addr, wsjtx_last_packet_time := some now }
        let pend := if stA.wsjtx_pending_grid_update then
            _send_pending_wsjtx_grid_update stA ok k
          else (stA, [], k)
        let stC := if pktType = 0 ∧ idPresent = true then
            { pend.1 with wsjtx_id := some (String.mk (idDecoded.getD [])) }
          else pend.1
        (true, stC, pend.2.1, pend.2.2)
      else (false, st, [], k)

/-- The timeout gate of check_heartbeats (line 1034): a recorded packet
time more than detection_timeout seconds old cancels the detection. -/
def packetTimedOut (t? : Option ℚ) (now : ℚ) : Bool :=
  match t? with
  | some t => decide (now - t > detection_timeout)
  | none => false

/-- check_heartbeats (lines 957-1040): packet processing, then the
30-second timeout gate, then the process-liveness AND-gate for WSJT-X;
JS8-Call detection is the process check alone. -/
def check_heartbeats (st : CommState) (recv : Option (List ℕ × ℕ)) (now : ℚ)
    (wsjtxProc js8Proc : Bool) (ok : ℕ → Bool) (k : ℕ) :
    Bool × Bool × CommState × List Event × ℕ :=
  let r := processPacket st recv now ok k
  let wDet0 := r.1
  let wDet1 := if packetTimedOut r.2.1.wsjtx_last_packet_time now = true then false else wDet0
  let wDet2 := if ¬ wsjtxProc = true then false else wDet1
  (wDet2, js8Proc, r.2.1, r.2.2.1, r.2.2.2)

/-- Shared shape of the two retry helpers (lines 1248-1270): up to fuel
attempts, stop at the first success, sleep retryInterval between
attempts. -/
def retryGo (att : CommState → ℕ → Bool × CommState × List Event × ℕ) (retryInterval : ℚ) :
    ℕ → CommState → ℕ → CommState × List Event × ℕ
  | 0, st, k => (st, [], k)
  | fuel + 1, st, k =>
    let r := att st k
    if r.1 then (r.2.1, r.2.2.1, r.2.2.2)
    else if fuel = 0 then (r.2.1, r.2.2.1, r.2.2.2)
    else
      let r2 := retryGo att retryInterval fuel r.2.1 r.2.2.2
      (r2.1, r.2.2.1 ++ Event.sleep retryInterval :: r2.2.1, r2.2.2)

def _send_wsjtx_grid_update_with_retry (maxRetries : ℕ) (retryInterval : ℚ)
    (st : CommState) (grid : String) (ok : ℕ → Bool) (k : ℕ) :
    CommState × List Event × ℕ :=
  retryGo (fun s j => send_wsjtx_grid_update s grid ok j) retryInterval maxRetries st k

def _send_js8call_grid_update_with_retry (maxRetries : ℕ) (retryInterval : ℚ)
    (st : CommState) (grid : String) (ok : ℕ → Bool) (k : ℕ) :
    CommState × List Event × ℕ :=
  retryGo (fun s j => send_js8call_grid_update s grid ok j) retryInterval maxRetries st k

structure AppState where
  comm : CommState
  wsjtx_detected : Bool
  js8call_detected : Bool
  prev_wsjtx_detected : Bool
  prev_js8call_detected : Bool
  current_grid : Option String
  max_retries : ℕ
  retry_interval : ℚ
  heartbeat_interval : ℚ
  sleep_interval : ℚ
deriving DecidableEq

/-- _update_grid_squares (lines 1232-1246): steady-state mismatch
detection and dispatch for both applications. -/
def _update_grid_squares (a : AppState) (ok : ℕ → Bool) (k : ℕ) :
    CommState × List Event × ℕ :=
  match a.current_grid with
  | none => (a.comm, [], k)
  | some g =>
    let r1 := if a.wsjtx_detected = true ∧ some g ≠ a.comm.wsjtx_last_grid then
        _send_wsjtx_grid_update_with_retry a.max_retries a.retry_interval a.comm g ok k
      else (a.comm, [], k)
    let r2 := if a.js8call_detected = true ∧ some g ≠ r1.1.js8call_last_grid then
        _send_js8call_grid_update_with_retry a.max_retries a.retry_interval r1.1 g ok r1.2.2
      else (r1.1, [], r1.2.2)
    (r2.1, r1.2.1 ++ r2.2.1, r2.2.2)

/-- The body of one _main_loop cycle (lines 1193-1224) after
check_heartbeats has produced this cycle's detection results wr and jr:
arm the pending update on a WSJT-X transition edge, send immediately
with retry on a JS8-Call transition edge, update detection state, run
_update_grid_squares, then sleep. -/
def mainLoopBody (a : AppState) (wr jr : Bool) (ok : ℕ → Bool) (k : ℕ) :
    AppState × List Event × ℕ :=
  let edge :=
    match a.current_grid with
    | none => (a.comm, ([] : List Event), k)
    | some g =>
      let c1 := if wr = true ∧ a.prev_wsjtx_detected = false then
          { a.comm with wsjtx_pending_grid_update := true, pending_grid_value := some g }
        else a.comm
      if jr = true ∧ a.prev_js8call_detected = false then
        _send_js8call_grid_update_with_retry a.max_retries a.retry_interval c1 g ok k
      else (c1, [], k)
  let a2 := { a with
    comm := edge.1
    prev_wsjtx_detected := wr
    prev_js8call_detected := jr
    wsjtx_detected := wr
    js8call_detected := jr }
  let upd := _update_grid_squares a2 ok edge.2.2
  let a3 := { a2 with comm := upd.1 }
  let sleepEv := if wr = true ∨ jr = true then Event.sleep a.heartbeat_interval
    else Event.sleep a.sleep_interval
  (a3, edge.2.1 ++ upd.2.1 ++ [sleepEv], upd.2.2)

/-- One full iteration of _main_loop: check_heartbeats then the loop
body. -/
def mainLoopIter (a : AppState) (recv : Option (List ℕ × ℕ)) (now : ℚ)
    (wsjtxProc js8Proc : Bool) (ok : ℕ → Bool) : AppState × List Event :=
  let h := check_heartbeats a.comm recv now wsjtxProc js8Proc ok 0
  let b := mainLoopBody { a with comm := h.2.2.1 } h.1 h.2.1 ok h.2.2.2.2
  (b.1, h.2.2.2.1 ++ b.2.1)

def isWsjtxSendEv : Event → Bool
  | Event.wsjtxSend _ _ => true
  | _ => false

def isJs8SendEv : Event → Bool
  | Event.js8Send _ _ => true
  | _ => false

def isSleepEv : Event → Bool
  | Event.sleep _ => true
  | _ => false

def countWsjtxSends (evs : List Event) : ℕ := evs.countP isWsjtxSendEv

def countJs8Sends (evs : List Event) : ℕ := evs.countP isJs8SendEv

def countSleeps (evs : List Event) : ℕ := evs.countP isSleepEv

/-- The events emitted by one invocation of the WSJT-X retry helper. -/
def wsjtxRetryEvents (maxRetries : ℕ) (ri : ℚ) (st : CommState) (grid : String)
    (ok : ℕ → Bool) (k : ℕ) : List Event :=
  (_send_wsjtx_grid_update_with_retry maxRetries ri st grid ok k).2.1

/-- The events emitted by one invocation of the JS8-Call retry helper. -/
def js8RetryEvents (maxRetries : ℕ) (ri : ℚ) (st : CommState) (grid : String)
    (ok : ℕ → Bool) (k : ℕ) : List Event :=
  (_send_js8call_grid_update_with_retry maxRetries ri st grid ok k).2.1

/-- Overwrite the schema-version field (bytes 4..7) of a datagram. -/
def setSchema (data : List ℕ) (s : ℕ) : List ℕ :=
  data.take 4 ++ [s / 16777216 % 256, s / 65536 % 256, s / 256 % 256, s % 256] ++ data.drop 8

/-! Section 5: helper lemmas. -/

theorem ratFloor_eq_floor (q : ℚ) : (Rat.floor q : ℤ) = ⌊q⌋ := by
  rw [Rat.floor_def', Rat.floor_def]

theorem pyInt_of_nonneg (q : ℚ) (h : 0 ≤ q) : pyInt q = ⌊q⌋ := by
  unfold pyInt
  rw [if_pos h, ratFloor_eq_floor]

theorem pyMod_eq_fract (a m : ℚ) (hm : m ≠ 0) : pyMod a m = m * Int.fract (a / m) := by
  unfold pyMod Int.fract
  rw [ratFloor_eq_floor]
  field_simp

theorem pyMod_nonneg (a m : ℚ) (hm : 0 < m) : 0 ≤ pyMod a m := by
  rw [pyMod_eq_fract a m hm.ne']
  exact mul_nonneg hm.le (Int.fract_nonneg _)

theorem pyMod_lt (a m : ℚ) (hm : 0 < m) : pyMod a m < m := by
  rw [pyMod_eq_fract a m hm.ne']
  have h1 := Int.fract_lt_one (a / m)
  nlinarith

theorem pyInt_toNat_lt_of_lt (q : ℚ) (n : ℕ) (h0 : 0 ≤ q) (h : q < n) :
    (pyInt q).toNat < n := by
  rw [pyInt_of_nonneg q h0]
  have hfl : ⌊q⌋ < (n : ℤ) := Int.floor_lt.mpr (by exact_mod_cast h)
  have hfl0 : 0 ≤ ⌊q⌋ := Int.floor_nonneg.mpr h0
  omega

theorem upperAlphabet_ok : ∀ i, i < 24 →
    pyListIndex upperAlphabet i = Except.ok (upperAlphabet.getD i 'A') ∧
      isUpperGridChar (upperAlphabet.getD i 'A') = true := by decide

theorem lowerAlphabet_ok : ∀ i, i < 24 →
    pyListIndex lowerAlphabet i = Except.ok (lowerAlphabet.getD i 'a') ∧
      isLowerGridChar (lowerAlphabet.getD i 'a') = true := by decide

theorem pyStrNat_digit : ∀ n, n < 10 →
    (pyStrNat n).data = [Char.ofNat (48 + n)] ∧ isDigitChar (Char.ofNat (48 + n)) = true := by
  decide

theorem string_data_append (s t : String) : (s ++ t).data = s.data ++ t.data := rfl

theorem matchesGrid4_build (c1 c2 : Char) (s1 s2 : String) (e1 e2 : Char)
    (h1 : s1.data = [e1]) (h2 : s2.data = [e2])
    (hc1 : isUpperGridChar c1 = true) (hc2 : isUpperGridChar c2 = true)
    (hd1 : isDigitChar e1 = true) (hd2 : isDigitChar e2 = true) :
    matchesGrid4 (String.mk [c1, c2] ++ s1 ++ s2) = true := by
  unfold matchesGrid4
  rw [string_data_append, string_data_append, h1, h2]
  simp only [List.cons_append, List.nil_append]
  rw [hc1, hc2, hd1, hd2]
  rfl

theorem matchesGrid6_build (c1 c2 : Char) (s1 s2 : String) (e1 e2 : Char) (c5 c6 : Char)
    (h1 : s1.data = [e1]) (h2 : s2.data = [e2])
    (hc1 : isUpperGridChar c1 = true) (hc2 : isUpperGridChar c2 = true)
    (hd1 : isDigitChar e1 = true) (hd2 : isDigitChar e2 = true)
    (hc5 : isLowerGridChar c5 = true) (hc6 : isLowerGridChar c6 = true) :
    matchesGrid6 (String.mk [c1, c2] ++ s1 ++ s2 ++ String.mk [c5, c6]) = true := by
  unfold matchesGrid6
  rw [string_data_append, string_data_append, string_data_append, h1, h2]
  simp only [List.cons_append, List.nil_append]
  rw [hc1, hc2, hd1, hd2, hc5, hc6]
  rfl

theorem lat_lon_to_grid_ok_of_ne6 (p : ℕ) (hp : p ≠ 6) (lat lon : ℚ)
    (h1 : -90 ≤ lat) (h2 : lat ≤ 90) (h3 : -180 ≤ lon) (h4 : lon ≤ 180) :
    ∃ g, lat_lon_to_grid p lat lon = Except.ok g ∧ matchesGrid4 g = true := by
  have hi1 : (pyInt ((lon + 180) / 20)).toNat < 24 :=
    pyInt_toNat_lt_of_lt _ 24 (div_nonneg (by linarith) (by norm_num))
      (by rw [div_lt_iff (by norm_num : (0:ℚ) < 20)]; push_cast; linarith)
  have hi2 : (pyInt ((lat + 90) / 10)).toNat < 24 :=
    pyInt_toNat_lt_of_lt _ 24 (div_nonneg (by linarith) (by norm_num))
      (by rw [div_lt_iff (by norm_num : (0:ℚ) < 10)]; push_cast; linarith)
  have hd1 : (pyInt (pyMod ((lon + 180) / 2) 10)).toNat < 10 :=
    pyInt_toNat_lt_of_lt _ 10 (pyMod_nonneg _ _ (by norm_num)) (pyMod_lt _ _ (by norm_num))
  have hd2 : (pyInt (pyMod (lat + 90) 10)).toNat < 10 :=
    pyInt_toNat_lt_of_lt _ 10 (pyMod_nonneg _ _ (by norm_num)) (pyMod_lt _ _ (by norm_num))
  obtain ⟨he1, hc1⟩ := upperAlphabet_ok _ hi1
  obtain ⟨he2, hc2⟩ := upperAlphabet_ok _ hi2
  obtain ⟨hs1, hg1⟩ := pyStrNat_digit _ hd1
  obtain ⟨hs2, hg2⟩ := pyStrNat_digit _ hd2
  refine ⟨String.mk [upperAlphabet.getD (pyInt ((lon + 180) / 20)).toNat 'A',
      upperAlphabet.getD (pyInt ((lat + 90) / 10)).toNat 'A']
      ++ pyStrNat (pyInt (pyMod ((lon + 180) / 2) 10)).toNat
      ++ pyStrNat (pyInt (pyMod (lat + 90) 10)).toNat, ?_, ?_⟩
  · unfold lat_lon_to_grid
    rw [if_neg (not_not_intro ⟨h1, h2⟩), if_neg (not_not_intro ⟨h3, h4⟩), he1, he2]
    dsimp only
    rw [if_neg hp]
  · exact matchesGrid4_build _ _ _ _ _ _ hs1 hs2 hc1 hc2 hg1 hg2

theorem lat_lon_to_grid_ok6 (lat lon : ℚ)
    (h1 : -90 ≤ lat) (h2 : lat ≤ 90) (h3 : -180 ≤ lon) (h4 : lon ≤ 180) :
    ∃ g, lat_lon_to_grid 6 lat lon = Except.ok g ∧ matchesGrid6 g = true := by
  have hi1 : (pyInt ((lon + 180) / 20)).toNat < 24 :=
    pyInt_toNat_lt_of_lt _ 24 (div_nonneg (by linarith) (by norm_num))
      (by rw [div_lt_iff (by norm_num : (0:ℚ) < 20)]; push_cast; linarith)
  have hi2 : (pyInt ((lat + 90) / 10)).toNat < 24 :=
    pyInt_toNat_lt_of_lt _ 24 (div_nonneg (by linarith) (by norm_num))
      (by rw [div_lt_iff (by norm_num : (0:ℚ) < 10)]; push_cast; linarith)
  have hd1 : (pyInt (pyMod ((lon + 180) / 2) 10)).toNat < 10 :=
    pyInt_toNat_lt_of_lt _ 10 (pyMod_nonneg _ _ (by norm_num)) (pyMod_lt _ _ (by norm_num))
  have hd2 : (pyInt (pyMod (lat + 90) 10)).toNat < 10 :=
    pyInt_toNat_lt_of_lt _ 10 (pyMod_nonneg _ _ (by norm_num)) (pyMod_lt _ _ (by norm_num))
  have hfl1 : pyInt ((lon + 180) / 2) = ⌊(lon + 180) / 2⌋ :=
    pyInt_of_nonneg _ (div_nonneg (by linarith) (by norm_num))
  have hkey1 : (lon + 180) - (⌊(lon + 180) / 2⌋ : ℚ) * 2 = 2 * Int.fract ((lon + 180) / 2) := by
    unfold Int.fract
    ring
  have hfr1a := Int.fract_nonneg ((lon + 180) / 2)
  have hfr1b := Int.fract_lt_one ((lon + 180) / 2)
  have hi3 : (pyInt ((((lon + 180) - (pyInt ((lon + 180) / 2) : ℚ) * 2) * 60) / 5)).toNat < 24 := by
    rw [hfl1]
    refine pyInt_toNat_lt_of_lt _ 24 ?_ ?_
    · rw [hkey1]
      have : (0:ℚ) ≤ 2 * Int.fract ((lon + 180) / 2) * 60 := by linarith
      linarith [div_nonneg this (by norm_num : (0:ℚ) ≤ 5)]
    · rw [hkey1, div_lt_iff (by norm_num : (0:ℚ) < 5)]
      push_cast
      linarith
  have hfl2 : pyInt (lat + 90) = ⌊lat + 90⌋ := pyInt_of_nonneg _ (by linarith)
  have hkey2 : (lat + 90) - (⌊lat + 90⌋ : ℚ) = Int.fract (lat + 90) := by
    unfold Int.fract
    ring
  have hfr2a := Int.fract_nonneg (lat + 90)
  have hfr2b := Int.fract_lt_one (lat + 90)
  have hi4 : (pyInt ((((lat + 90) - (pyInt (lat + 90) : ℚ)) * 60) / (5 / 2))).toNat < 24 := by
    rw [hfl2]
    refine pyInt_toNat_lt_of_lt _ 24 ?_ ?_
    · rw [hkey2]
      have : (0:ℚ) ≤ Int.fract (lat + 90) * 60 := by linarith
      linarith [div_nonneg this (by norm_num : (0:ℚ) ≤ 5 / 2)]
    · rw [hkey2, div_lt_iff (by norm_num : (0:ℚ) < 5 / 2)]
      push_cast
      linarith
  obtain ⟨he1, hc1⟩ := upperAlphabet_ok _ hi1
  obtain ⟨he2, hc2⟩ := upperAlphabet_ok _ hi2
  obtain ⟨hs1, hg1⟩ := pyStrNat_digit _ hd1
  obtain ⟨hs2, hg2⟩ := pyStrNat_digit _ hd2
  obtain ⟨he3, hc3⟩ := lowerAlphabet_ok _ hi3
  obtain ⟨he4, hc4⟩ := lowerAlphabet_ok _ hi4
  refine ⟨String.mk [upperAlphabet.getD (pyInt ((lon + 180) / 20)).toNat 'A',
      upperAlphabet.getD (pyInt ((lat + 90) / 10)).toNat 'A']
      ++ pyStrNat (pyInt (pyMod ((lon + 180) / 2) 10)).toNat
      ++ pyStrNat (pyInt (pyMod (lat + 90) 10)).toNat
      ++ String.mk
        [lowerAlphabet.getD
          (pyInt ((((lon + 180) - (pyInt ((lon + 180) / 2) : ℚ) * 2) * 60) / 5)).toNat 'a',
         lowerAlphabet.getD
          (pyInt ((((lat + 90) - (pyInt (lat + 90) : ℚ)) * 60) / (5 / 2))).toNat 'a'], ?_, ?_⟩
  · unfold lat_lon_to_grid
    rw [if_neg (not_not_intro ⟨h1, h2⟩), if_neg (not_not_intro ⟨h3, h4⟩), he1, he2]
    dsimp only
    rw [if_pos rfl, he3, he4]
  · exact matchesGrid6_build _ _ _ _ _ _ _ _ hs1 hs2 hc1 hc2 hg1 hg2 hc3 hc4

/-- C1: For every latitude in [-90, 90] and longitude in [-180, 180],
GridConverter.lat_lon_to_grid is deterministic (equal coordinates and
configured precision give an equal result) and returns a string matching
[A-X]{2}[0-9]{2} when the precision is 4, or [A-X]{2}[0-9]{2}[a-x]{2}
when the precision is 6. -/
theorem C1_grid_deterministic_and_format (lat lon : ℚ)
    (hlat : -90 ≤ lat ∧ lat ≤ 90) (hlon : -180 ≤ lon ∧ lon ≤ 180) :
    (∀ p lat' lon', lat = lat' → lon = lon' →
      lat_lon_to_grid p lat lon = lat_lon_to_grid p lat' lon') ∧
    (∃ g, lat_lon_to_grid 4 lat lon = Except.ok g ∧ matchesGrid4 g = true) ∧
    (∃ g, lat_lon_to_grid 6 lat lon = Except.ok g ∧ matchesGrid6 g = true) := by
  refine ⟨?_, lat_lon_to_grid_ok_of_ne6 4 (by norm_num) lat lon hlat.1 hlat.2 hlon.1 hlon.2,
    lat_lon_to_grid_ok6 lat lon hlat.1 hlat.2 hlon.1 hlon.2⟩
  intro p lat' lon' hla hlo
  rw [hla, hlo]

/-- C1 witness: the theorem applied at latitude 0, longitude 0. -/
theorem C1_witness :
    ∃ g, lat_lon_to_grid 4 0 0 = Except.ok g ∧ matchesGrid4 g = true :=
  (C1_grid_deterministic_and_format 0 0 (by norm_num) (by norm_num)).2.1

/-- C7 counterexample: with precision 5 (outside the claimed set 4 or 6)
and in-range coordinates, lat_lon_to_grid returns a grid without raising
any error, so failing iff the precision is outside the set 4, 6 is false
on the code: the source only consults the precision to decide whether to
append the subsquare. -/
theorem C7_counterexample : lat_lon_to_grid 5 0 0 = Except.ok "JJ00" := by decide

/-- C7 amended: lat_lon_to_grid fails (raises ValueError) if and only if
the latitude is outside [-90, 90] or the longitude is outside
[-180, 180]; the precision never causes an error, and for in-range
coordinates the call returns a grid square whatever the precision. -/
theorem C7_error_iff_out_of_range (p : ℕ) (lat lon : ℚ) :
    exceptIsOk (lat_lon_to_grid p lat lon) = false ↔
      (lat < -90 ∨ 90 < lat ∨ lon < -180 ∨ 180 < lon) := by
  by_cases hla : -90 ≤ lat ∧ lat ≤ 90
  · by_cases hlo : -180 ≤ lon ∧ lon ≤ 180
    · have hok : exceptIsOk (lat_lon_to_grid p lat lon) = true := by
        by_cases hp : p = 6
        · subst hp
          obtain ⟨g, hg, -⟩ := lat_lon_to_grid_ok6 lat lon hla.1 hla.2 hlo.1 hlo.2
          rw [hg]
          rfl
        · obtain ⟨g, hg, -⟩ := lat_lon_to_grid_ok_of_ne6 p hp lat lon hla.1 hla.2 hlo.1 hlo.2
          rw [hg]
          rfl
      rw [hok]
      simp only [Bool.true_eq_false, false_iff]
      push_neg
      exact ⟨by linarith [hla.1], by linarith [hla.2], by linarith [hlo.1], by linarith [hlo.2]⟩
    · have herr : lat_lon_to_grid p lat lon = Except.error PyErr.valueError := by
        unfold lat_lon_to_grid
        rw [if_neg (not_not_intro hla), if_pos hlo]
      rw [herr]
      refine iff_of_true rfl ?_
      rcases not_and_or.mp hlo with h | h
      · exact Or.inr (Or.inr (Or.inl (not_le.mp h)))
      · exact Or.inr (Or.inr (Or.inr (not_le.mp h)))
  · have herr : lat_lon_to_grid p lat lon = Except.error PyErr.valueError := by
      unfold lat_lon_to_grid
      rw [if_pos hla]
    rw [herr]
    refine iff_of_true rfl ?_
    rcases not_and_or.mp hla with h | h
    · exact Or.inl (not_le.mp h)
    · exact Or.inr (Or.inl (not_le.mp h))

/-- C7 witness: the amended theorem applied at latitude 100. -/
theorem C7_witness : exceptIsOk (lat_lon_to_grid 4 100 0) = false :=
  (C7_error_iff_out_of_range 4 100 0).mpr (Or.inr (Or.inl (by norm_num)))

/-- C2: NMEAParser.parse_nmea_sentence never raises on any input string,
well-formed or malformed: it always returns either a latitude/longitude
pair or no position (None); three malformed inputs are evaluated as
illustrations. -/
theorem C2_parse_nmea_sentence_total :
    (∀ s : String, parse_nmea_sentence s = none ∨
      ∃ la lo : ℚ, parse_nmea_sentence s = some (la, lo)) ∧
    parse_nmea_sentence "" = none ∧
    parse_nmea_sentence "$GPGGA,x,y" = none ∧
    parse_nmea_sentence "$GPGLL,garbage,N,bad,E,1,A" = none := by
  refine ⟨?_, by decide, by decide, by decide⟩
  intro s
  cases h : parse_nmea_sentence s with
  | none => exact Or.inl rfl
  | some p =>
    obtain ⟨la, lo⟩ := p
    exact Or.inr ⟨la, lo, rfl⟩

theorem findIdx_dot_ne_empty (coord : String) (dp : ℕ)
    (h : coord.toList.findIdx? (fun c => c = '.') = some dp) : coord ≠ "" := by
  intro hc
  subst hc
  have h0 : (("" : String).toList.findIdx? (fun c => c = '.')) = none := by decide
  rw [h0] at h
  exact Option.noConfusion h

/-- Inversion of a successful north-direction conversion: the coordinate
field is non-empty and the raw (unsigned) conversion yields the value. -/
theorem convert_N_inv (coord : String) (q : ℚ)
    (h : _convert_nmea_coord coord "N" = Except.ok q) :
    coord ≠ "" ∧ nmeaCoordRaw coord = Except.ok q := by
  by_cases hcoord : coord = ""
  · unfold _convert_nmea_coord at h
    rw [if_pos (Or.inl hcoord)] at h
    exact absurd h (by simp)
  · refine ⟨hcoord, ?_⟩
    unfold _convert_nmea_coord at h
    rw [if_neg (not_or.mpr ⟨hcoord, by decide⟩)] at h
    cases hr : nmeaCoordRaw coord with
    | ok dd =>
      rw [hr] at h
      dsimp only at h
      rw [if_neg (by decide : ¬(("N" : String) = "S" ∨ ("N" : String) = "W"))] at h
      simp only [Except.ok.injEq] at h
      rw [h]
    | error e =>
      rw [hr] at h
      dsimp only at h
      exact absurd h (by simp)

/-- C6 counterexample: the field "12.34" has its decimal point exactly at
position 2, so the claim requires the conversion to return 0 + 12.34/60;
the code instead slices an empty degrees substring, float of the empty
string raises ValueError, and the conversion fails. -/
theorem C6_counterexample :
    _convert_nmea_coord "12.34" "N" = Except.error PyErr.valueError := by decide

/-- C6 amended: when the decimal point is found at position dp with at
least two characters before it and both slices (everything up to dp-2,
which must be non-empty and parseable, hence effectively dp at position
3 or more for plain digit fields, and the rest) parse as floats, the
conversion returns degrees + minutes/60 negated exactly for S or W (the
spec examples 4807.038 N and 01131.000 E evaluate as claimed); when the
decimal point is at position below 2, absent, or at position exactly 2
with an unparseable empty degrees slice, only that conversion fails with
ValueError, and a sentence containing such a field still parses to None
rather than raising. -/
theorem C6_convert_nmea_coord_spec :
    (∀ (coord dir : String) (dp : ℕ) (d m : ℚ),
      coord.toList.findIdx? (fun c => c = '.') = some dp → 2 ≤ dp →
      pyParseFloatL (coord.toList.take (dp - 2)) = some d →
      pyParseFloatL (coord.toList.drop (dp - 2)) = some m →
      dir ≠ "" →
      _convert_nmea_coord coord dir =
        Except.ok (if dir = "S" ∨ dir = "W" then -(d + m / 60) else d + m / 60)) ∧
    _convert_nmea_coord "4807.038" "N" = Except.ok (481173 / 10000) ∧
    _convert_nmea_coord "01131.000" "E" = Except.ok (691 / 60) ∧
    _convert_nmea_coord "4807.038" "S" = Except.ok (-(481173 / 10000)) ∧
    (∀ (coord dir : String) (dp : ℕ),
      coord.toList.findIdx? (fun c => c = '.') = some dp → dp < 2 →
      _convert_nmea_coord coord dir = Except.error PyErr.valueError) ∧
    (∀ (coord dir : String),
      coord.toList.findIdx? (fun c => c = '.') = none →
      _convert_nmea_coord coord dir = Except.error PyErr.valueError) ∧
    parse_nmea_sentence "$GPGLL,12.34,N,01131.000,E,123519,A" = none := by
  refine ⟨?_, by decide, by decide, by decide, ?_, ?_, by decide⟩
  · intro coord dir dp d m hdp hdp2 hd hm hdir
    have hcoord : coord ≠ "" := findIdx_dot_ne_empty coord dp hdp
    have hraw : nmeaCoordRaw coord = Except.ok (d + m / 60) := by
      simp only [nmeaCoordRaw]
      rw [hdp]
      dsimp only
      rw [if_neg (by omega : ¬ dp < 2), hd, hm]
    unfold _convert_nmea_coord
    rw [if_neg (not_or.mpr ⟨hcoord, hdir⟩), hraw]
  · intro coord dir dp hdp hdp2
    by_cases hdir : dir = ""
    · unfold _convert_nmea_coord
      rw [if_pos (Or.inr hdir)]
    · have hcoord : coord ≠ "" := findIdx_dot_ne_empty coord dp hdp
      have hraw : nmeaCoordRaw coord = Except.error PyErr.valueError := by
        simp only [nmeaCoordRaw]
        rw [hdp]
        dsimp only
        rw [if_pos hdp2]
      unfold _convert_nmea_coord
      rw [if_neg (not_or.mpr ⟨hcoord, hdir⟩), hraw]
  · intro coord dir hdp
    by_cases hdir : dir = ""
    · unfold _convert_nmea_coord
      rw [if_pos (Or.inr hdir)]
    · by_cases hcoord : coord = ""
      · unfold _convert_nmea_coord
        rw [if_pos (Or.inl hcoord)]
      · have hraw : nmeaCoordRaw coord = Except.error PyErr.valueError := by
          simp only [nmeaCoordRaw]
          rw [hdp]
        unfold _convert_nmea_coord
        rw [if_neg (not_or.mpr ⟨hcoord, hdir⟩), hraw]

/-- C6 witness: the general clause of the amended theorem applied to the
field 4807.038 with direction W. -/
theorem C6_witness :
    _convert_nmea_coord "4807.038" "W" =
      Except.ok (if ("W" : String) = "S" ∨ ("W" : String) = "W"
        then -(48 + (7038 / 1000) / 60) else 48 + (7038 / 1000) / 60) :=
  C6_convert_nmea_coord_spec.1 "4807.038" "W" 4 48 (7038 / 1000)
    (by decide) (by omega) (by decide) (by decide) (by decide)

/-- C9: a GPGGA sentence whose fix-quality field is 0 and a GPRMC or
GPGLL sentence whose status field is not A parse to no position; a
well-formed fix-data sentence with active status and valid coordinate
fields parses to the converted decimal-degree coordinates (shown both
for every such GPGGA field list and for a concrete GPRMC sentence). -/
theorem C9_no_fix_and_round_trip :
    (∀ parts : List String, 15 ≤ parts.length → parts.getD 6 "" = "0" →
      _parse_gpgga parts = none) ∧
    (∀ parts : List String, 12 ≤ parts.length → parts.getD 2 "" ≠ "A" →
      _parse_gprmc parts = none) ∧
    (∀ parts : List String, 7 ≤ parts.length → parts.getD 6 "" ≠ "A" →
      _parse_gpgll parts = none) ∧
    (∀ (parts : List String) (la lo : ℚ), 15 ≤ parts.length → parts.getD 6 "" ≠ "0" →
      _convert_nmea_coord (parts.getD 2 "") (parts.getD 3 "") = Except.ok la →
      _convert_nmea_coord (parts.getD 4 "") (parts.getD 5 "") = Except.ok lo →
      _parse_gpgga parts = some (la, lo)) ∧
    parse_nmea_sentence "$GPRMC,123519,A,4807.038,N,01131.000,E,022.4,084.4,230394,003.1,W*6A"
      = some (481173 / 10000, 691 / 60) := by
  refine ⟨?_, ?_, ?_, ?_, by decide⟩
  · intro parts hlen hfix
    unfold _parse_gpgga
    rw [if_neg (by omega), if_pos hfix]
  · intro parts hlen hst
    unfold _parse_gprmc
    rw [if_neg (by omega), if_pos hst]
  · intro parts hlen hst
    unfold _parse_gpgll
    rw [if_neg (by omega), if_pos hst]
  · intro parts la lo hlen hfix hla hlo
    unfold _parse_gpgga
    rw [if_neg (by omega), if_neg hfix, hla, hlo]

/-- C9 witness: a GPGGA field list with fix quality 0 parses to none. -/
theorem C9_witness :
    _parse_gpgga ["$GPGGA", "123519", "4807.038", "N", "01131.000", "E", "0", "08",
      "0.9", "545.4", "M", "46.9", "M", "", ""] = none :=
  C9_no_fix_and_round_trip.1 _ (by decide) (by decide)

/-- C10: the hemisphere direction field is validated only for being
non-empty: _convert_nmea_coord negates exactly for S or W and returns
the same positive value as for N on every other non-empty direction, so
a typed sentence whose hemisphere indicator is corrupted (for example Q)
still yields a position rather than no-result. -/
theorem C10_direction_only_checked_nonempty :
    (∀ (coord dir : String) (q : ℚ), dir ≠ "" → dir ≠ "S" → dir ≠ "W" →
      _convert_nmea_coord coord "N" = Except.ok q →
      _convert_nmea_coord coord dir = Except.ok q) ∧
    (∀ (coord : String) (q : ℚ), _convert_nmea_coord coord "N" = Except.ok q →
      _convert_nmea_coord coord "S" = Except.ok (-q) ∧
      _convert_nmea_coord coord "W" = Except.ok (-q)) ∧
    parse_nmea_sentence "$GPGGA,123519,4807.038,Q,01131.000,E,1,08,0.9,545.4,M,46.9,M,,*47"
      = some (481173 / 10000, 691 / 60) := by
  refine ⟨?_, ?_, by decide⟩
  · intro coord dir q hne hS hW h
    obtain ⟨hc, hraw⟩ := convert_N_inv coord q h
    unfold _convert_nmea_coord
    rw [if_neg (not_or.mpr ⟨hc, hne⟩), hraw]
    dsimp only
    rw [if_neg (not_or.mpr ⟨hS, hW⟩)]
  · intro coord q h
    obtain ⟨hc, hraw⟩ := convert_N_inv coord q h
    constructor
    · unfold _convert_nmea_coord
      rw [if_neg (not_or.mpr ⟨hc, by decide⟩), hraw]
      dsimp only
      rw [if_pos (Or.inl rfl)]
    · unfold _convert_nmea_coord
      rw [if_neg (not_or.mpr ⟨hc, by decide⟩), hraw]
      dsimp only
      rw [if_pos (Or.inr rfl)]

/-- C10 witness: the corrupted direction Q applied to the spec example
field, giving the same positive value as N. -/
theorem C10_witness :
    _convert_nmea_coord "4807.038" "Q" = Except.ok (481173 / 10000) :=
  C10_direction_only_checked_nonempty.1 "4807.038" "Q" (481173 / 10000)
    (by decide) (by decide) (by decide) (by decide)

theorem send_wsjtx_fields (st : CommState) (grid : String) (ok : ℕ → Bool) (k : ℕ) :
    (send_wsjtx_grid_update st grid ok k).2.1.wsjtx_id = st.wsjtx_id ∧
    (send_wsjtx_grid_update st grid ok k).2.1.wsjtx_last_addr = st.wsjtx_last_addr ∧
    (send_wsjtx_grid_update st grid ok k).2.1.wsjtx_last_packet_time
      = st.wsjtx_last_packet_time ∧
    (send_wsjtx_grid_update st grid ok k).2.1.wsjtx_pending_grid_update
      = st.wsjtx_pending_grid_update ∧
    (send_wsjtx_grid_update st grid ok k).2.1.pending_grid_value = st.pending_grid_value ∧
    (send_wsjtx_grid_update st grid ok k).2.1.js8call_last_grid = st.js8call_last_grid := by
  unfold send_wsjtx_grid_update
  split_ifs <;> simp

theorem send_js8call_fields (st : CommState) (grid : String) (ok : ℕ → Bool) (k : ℕ) :
    (send_js8call_grid_update st grid ok k).2.1.wsjtx_id = st.wsjtx_id ∧
    (send_js8call_grid_update st grid ok k).2.1.wsjtx_last_addr = st.wsjtx_last_addr ∧
    (send_js8call_grid_update st grid ok k).2.1.wsjtx_last_packet_time
      = st.wsjtx_last_packet_time ∧
    (send_js8call_grid_update st grid ok k).2.1.wsjtx_pending_grid_update
      = st.wsjtx_pending_grid_update ∧
    (send_js8call_grid_update st grid ok k).2.1.pending_grid_value = st.pending_grid_value ∧
    (send_js8call_grid_update st grid ok k).2.1.wsjtx_last_grid = st.wsjtx_last_grid := by
  unfold send_js8call_grid_update
  split_ifs <;> simp

theorem send_pending_fields (st : CommState) (ok : ℕ → Bool) (k : ℕ) :
    (_send_pending_wsjtx_grid_update st ok k).1.wsjtx_id = st.wsjtx_id ∧
    (_send_pending_wsjtx_grid_update st ok k).1.wsjtx_last_addr = st.wsjtx_last_addr ∧
    (_send_pending_wsjtx_grid_update st ok k).1.wsjtx_last_packet_time
      = st.wsjtx_last_packet_time := by
  unfold _send_pending_wsjtx_grid_update
  split_ifs with h
  · obtain ⟨h1, h2, h3, -⟩ :=
      send_wsjtx_fields st ((st.pending_grid_value).getD "") ok k
    exact ⟨h1, h2, h3⟩
  · exact ⟨rfl, rfl, rfl⟩

/-- Behaviour of the pending-update consumer when armed with a truthy
grid and an addressable endpoint: a 2-second settle sleep, exactly one
send of the stored grid, and both the flag and the value cleared. -/
theorem send_pending_armed_spec (st : CommState) (ok : ℕ → Bool) (k : ℕ) (g : String)
    (hv : st.pending_grid_value = some g) (hg : g ≠ "")
    (hid : truthyOptStr st.wsjtx_id = true) (haddr : st.wsjtx_last_addr ≠ none) :
    (_send_pending_wsjtx_grid_update st ok k).1.wsjtx_pending_grid_update = false ∧
    (_send_pending_wsjtx_grid_update st ok k).1.pending_grid_value = none ∧
    (_send_pending_wsjtx_grid_update st ok k).2.1
      = [Event.sleep 2, Event.wsjtxSend g (ok k)] := by
  have htruthy : truthyOptStr st.pending_grid_value = true := by
    rw [hv]
    simp [truthyOptStr, hg]
  have hsend : send_wsjtx_grid_update st ((st.pending_grid_value).getD "") ok k
      = send_wsjtx_grid_update st g ok k := by
    rw [hv]
    rfl
  have hspec : send_wsjtx_grid_update st g ok k =
      (ok k, (if ok k then { st with wsjtx_last_grid := some g } else st),
        [Event.wsjtxSend g (ok k)], k + 1) := by
    unfold send_wsjtx_grid_update
    rw [if_neg (not_or.mpr ⟨not_not_intro hid, haddr⟩)]
    cases hok : ok k <;> simp
  unfold _send_pending_wsjtx_grid_update
  rw [if_pos htruthy]
  dsimp only
  rw [hsend, hspec]
  simp

theorem send_pending_time (st : CommState) (ok : ℕ → Bool) (k : ℕ) :
    (_send_pending_wsjtx_grid_update st ok k).1.wsjtx_last_packet_time
      = st.wsjtx_last_packet_time :=
  (send_pending_fields st ok k).2.2

theorem send_pending_addr (st : CommState) (ok : ℕ → Bool) (k : ℕ) :
    (_send_pending_wsjtx_grid_update st ok k).1.wsjtx_last_addr = st.wsjtx_last_addr :=
  (send_pending_fields st ok k).2.1

theorem processPacket_none (st : CommState) (now : ℚ) (ok : ℕ → Bool) (k : ℕ) :
    processPacket st none now ok k = (false, st, [], k) := rfl

theorem processPacket_short (st : CommState) (data : List ℕ) (addr : ℕ) (now : ℚ)
    (ok : ℕ → Bool) (k : ℕ) (h : data.length < 16) :
    processPacket st (some (data, addr)) now ok k = (false, st, [], k) := by
  unfold processPacket
  dsimp only
  rw [if_pos h]

theorem processPacket_badmagic (st : CommState) (data : List ℕ) (addr : ℕ) (now : ℚ)
    (ok : ℕ → Bool) (k : ℕ) (hlen : ¬ data.length < 16) (h : beU32 data 0 ≠ MAGIC_NUMBER) :
    processPacket st (some (data, addr)) now ok k = (false, st, [], k) := by
  unfold processPacket
  dsimp only
  rw [if_neg hlen, if_pos h]

theorem processPacket_decodefail (st : CommState) (data : List ℕ) (addr : ℕ) (now : ℚ)
    (ok : ℕ → Bool) (k : ℕ) (hlen : ¬ data.length < 16) (hmag : beU32 data 0 = MAGIC_NUMBER)
    (hdec : ((decide (0 < beU32 data 12) && decide (16 + beU32 data 12 ≤ data.length)) = true)
      ∧ utf8Decode ((data.drop 16).take (beU32 data 12)) = none) :
    processPacket st (some (data, addr)) now ok k = (false, st, [], k) := by
  unfold processPacket
  dsimp only
  rw [if_neg hlen, if_neg (not_not_intro hmag), if_pos hdec]

theorem processPacket_othertype (st : CommState) (data : List ℕ) (addr : ℕ) (now : ℚ)
    (ok : ℕ → Bool) (k : ℕ) (hlen : ¬ data.length < 16) (hmag : beU32 data 0 = MAGIC_NUMBER)
    (hdec : ¬(((decide (0 < beU32 data 12) && decide (16 + beU32 data 12 ≤ data.length)) = true)
      ∧ utf8Decode ((data.drop 16).take (beU32 data 12)) = none))
    (htyp : ¬(beU32 data 8 = 0 ∨ beU32 data 8 = 1)) :
    processPacket st (some (data, addr)) now ok k = (false, st, [], k) := by
  unfold processPacket
  dsimp only
  rw [if_neg hlen, if_neg (not_not_intro hmag), if_neg hdec, if_neg htyp]

theorem processPacket_qualifying (st : CommState) (data : List ℕ) (addr : ℕ) (now : ℚ)
    (ok : ℕ → Bool) (k : ℕ) (hlen : ¬ data.length < 16) (hmag : beU32 data 0 = MAGIC_NUMBER)
    (hdec : ¬(((decide (0 < beU32 data 12) && decide (16 + beU32 data 12 ≤ data.length)) = true)
      ∧ utf8Decode ((data.drop 16).take (beU32 data 12)) = none))
    (htyp : beU32 data 8 = 0 ∨ beU32 data 8 = 1) :
    (processPacket st (some (data, addr)) now ok k).1 = true ∧
    (processPacket st (some (data, addr)) now ok k).2.1.wsjtx_last_packet_time = some now ∧
    (processPacket st (some (data, addr)) now ok k).2.1.wsjtx_last_addr = some addr := by
  unfold processPacket
  dsimp only
  rw [if_neg hlen, if_neg (not_not_intro hmag), if_neg hdec, if_pos htyp]
  refine ⟨rfl, ?_, ?_⟩
  · split_ifs <;> simp [send_pending_time]
  · split_ifs <;> simp [send_pending_addr]

/-- Inversion: the packet-processing step only reports a detection for a
received datagram of at least 16 bytes whose magic number matches and
whose packet type is heartbeat (0) or status (1); it then records the
receive time and sender address. -/
theorem processPacket_fst_true (st : CommState) (recv : Option (List ℕ × ℕ)) (now : ℚ)
    (ok : ℕ → Bool) (k : ℕ) (h : (processPacket st recv now ok k).1 = true) :
    ∃ data addr, recv = some (data, addr) ∧ 16 ≤ data.length ∧
      beU32 data 0 = MAGIC_NUMBER ∧ (beU32 data 8 = 0 ∨ beU32 data 8 = 1) ∧
      (processPacket st recv now ok k).2.1.wsjtx_last_packet_time = some now ∧
      (processPacket st recv now ok k).2.1.wsjtx_last_addr = some addr := by
  match recv with
  | none =>
    rw [processPacket_none] at h
    exact absurd h (by simp)
  | some (data, addr) =>
    refine ⟨data, addr, rfl, ?_⟩
    by_cases h1 : data.length < 16
    · rw [processPacket_short st data addr now ok k h1] at h
      exact absurd h (by simp)
    by_cases h2 : beU32 data 0 ≠ MAGIC_NUMBER
    · rw [processPacket_badmagic st data addr now ok k h1 h2] at h
      exact absurd h (by simp)
    by_cases h3 : ((decide (0 < beU32 data 12) && decide (16 + beU32 data 12 ≤ data.length))
        = true) ∧ utf8Decode ((data.drop 16).take (beU32 data 12)) = none
    · rw [processPacket_decodefail st data addr now ok k h1 (not_not.mp h2) h3] at h
      exact absurd h (by simp)
    by_cases h4 : beU32 data 8 = 0 ∨ beU32 data 8 = 1
    · obtain ⟨-, htime, haddr⟩ := processPacket_qualifying st data addr now ok k h1
        (not_not.mp h2) h3 h4
      exact ⟨by omega, not_not.mp h2, h4, htime, haddr⟩
    · rw [processPacket_othertype st data addr now ok k h1 (not_not.mp h2) h3 h4] at h
      exact absurd h (by simp)

theorem check_heartbeats_state_eq (st : CommState) (recv : Option (List ℕ × ℕ)) (now : ℚ)
    (wp jp : Bool) (ok : ℕ → Bool) (k : ℕ) :
    (check_heartbeats st recv now wp jp ok k).2.2.1 = (processPacket st recv now ok k).2.1 ∧
    (check_heartbeats st recv now wp jp ok k).2.2.2.1
      = (processPacket st recv now ok k).2.2.1 ∧
    (check_heartbeats st recv now wp jp ok k).2.2.2.2
      = (processPacket st recv now ok k).2.2.2 ∧
    (check_heartbeats st recv now wp jp ok k).2.1 = jp := by
  unfold check_heartbeats
  exact ⟨rfl, rfl, rfl, rfl⟩

/-- C3: on every detection cycle, check_heartbeats reports WSJT-X live
only if both a qualifying packet (magic number match, heartbeat or
status type) was observed within the 30-second liveness window (the
recorded packet time is this cycle's receive time) and the WSJT-X
process is running; removing either condition forces Unseen this cycle;
and JS8-Call is reported live exactly when its process is found running
this cycle. -/
theorem C3_detection_and_gate (st : CommState) (recv : Option (List ℕ × ℕ)) (now : ℚ)
    (wp jp : Bool) (ok : ℕ → Bool) (k : ℕ) :
    ((check_heartbeats st recv now wp jp ok k).1 = true →
      wp = true ∧
      (∃ data addr, recv = some (data, addr) ∧ 16 ≤ data.length ∧
        beU32 data 0 = MAGIC_NUMBER ∧ (beU32 data 8 = 0 ∨ beU32 data 8 = 1)) ∧
      (∃ t, (check_heartbeats st recv now wp jp ok k).2.2.1.wsjtx_last_packet_time = some t ∧
        now - t ≤ detection_timeout)) ∧
    (wp = false → (check_heartbeats st recv now wp jp ok k).1 = false) ∧
    (packetTimedOut (check_heartbeats st recv now wp jp ok k).2.2.1.wsjtx_last_packet_time now
        = true →
      (check_heartbeats st recv now wp jp ok k).1 = false) ∧
    (check_heartbeats st recv now wp jp ok k).2.1 = jp := by
  refine ⟨?_, ?_, ?_, (check_heartbeats_state_eq st recv now wp jp ok k).2.2.2⟩
  · intro h
    unfold check_heartbeats at h
    dsimp only at h
    cases hwp : wp with
    | false =>
      rw [hwp] at h
      simp at h
    | true =>
      rw [hwp, if_neg (by simp : ¬¬(true = true))] at h
      cases htm : packetTimedOut (processPacket st recv now ok k).2.1.wsjtx_last_packet_time
          now with
      | true =>
        rw [htm] at h
        simp at h
      | false =>
        rw [htm, if_neg (by simp : ¬(false = true))] at h
        obtain ⟨data, addr, hrecv, hlen, hmag, htyp, htime, -⟩ :=
          processPacket_fst_true st recv now ok k (by simpa using h)
        refine ⟨rfl, ⟨data, addr, hrecv, hlen, hmag, htyp⟩, now, ?_, ?_⟩
        · rw [(check_heartbeats_state_eq st recv now _ jp ok k).1]
          exact htime
        · unfold detection_timeout
          norm_num
  · intro h
    unfold check_heartbeats
    dsimp only
    rw [h]
    simp
  · intro h
    rw [(check_heartbeats_state_eq st recv now wp jp ok k).1] at h
    unfold check_heartbeats
    dsimp only
    rw [if_pos h]
    simp

/-- C3 witness: JS8-Call liveness equals the process-check result at a
concrete cycle with no datagram. -/
theorem C3_witness :
    (check_heartbeats ⟨none, none, none, none, none, false, none⟩ none 0 false true
      (fun _ => true) 0).1 = false :=
  (C3_detection_and_gate ⟨none, none, none, none, none, false, none⟩ none 0 false true
    (fun _ => true) 0).2.1 rfl

theorem check_heartbeats_discard (st : CommState) (recv : Option (List ℕ × ℕ)) (now : ℚ)
    (wp jp : Bool) (ok : ℕ → Bool) (k : ℕ)
    (h : processPacket st recv now ok k = (false, st, [], k)) :
    check_heartbeats st recv now wp jp ok k = (false, jp, st, [], k) := by
  unfold check_heartbeats
  rw [h]
  dsimp only
  split_ifs <;> rfl

/-- C4 counterexample: a 16-byte heartbeat whose declared id length (5)
exceeds the zero remaining bytes is NOT discarded: the claim says such a
packet produces no detection event and no endpoint-state change, but the
code skips only the id decode and still detects the heartbeat and
updates the endpoint state. -/
theorem C4_counterexample :
    (check_heartbeats ⟨none, none, none, none, none, false, none⟩
      (some ([0xad, 0xbc, 0xcb, 0xda, 0, 0, 0, 2, 0, 0, 0, 0, 0, 0, 0, 5], 7)) 100 true false
      (fun _ => true) 0).1 = true ∧
    (check_heartbeats ⟨none, none, none, none, none, false, none⟩
      (some ([0xad, 0xbc, 0xcb, 0xda, 0, 0, 0, 2, 0, 0, 0, 0, 0, 0, 0, 5], 7)) 100 true false
      (fun _ => true) 0).2.2.1.wsjtx_last_packet_time = some 100 := by
  constructor <;> decide

/-- C4 amended: the decode path is total; a datagram shorter than the
16-byte header or with a wrong magic number is discarded with no
detection and no state change; the result never depends on the
schema-version bytes 4..7 (so versions 2 and 3 are both accepted); but a
heartbeat or status packet whose declared string length exceeds the
remaining buffer is not discarded: its string is simply not decoded and
the packet still produces a detection recording time and address. -/
theorem C4_decode_discard_spec (st : CommState) (data : List ℕ) (addr : ℕ) (now : ℚ)
    (wp jp : Bool) (ok : ℕ → Bool) (k : ℕ) :
    (data.length < 16 →
      check_heartbeats st (some (data, addr)) now wp jp ok k = (false, jp, st, [], k)) ∧
    (16 ≤ data.length → beU32 data 0 ≠ MAGIC_NUMBER →
      check_heartbeats st (some (data, addr)) now wp jp ok k = (false, jp, st, [], k)) ∧
    (∀ b0 b1 b2 b3 s0 s1 s2 s3 t0 t1 t2 t3 : ℕ, ∀ rest : List ℕ,
      check_heartbeats st
          (some (b0 :: b1 :: b2 :: b3 :: s0 :: s1 :: s2 :: s3 :: rest, addr)) now wp jp ok k
        = check_heartbeats st
          (some (b0 :: b1 :: b2 :: b3 :: t0 :: t1 :: t2 :: t3 :: rest, addr)) now wp jp ok k) ∧
    (16 ≤ data.length → beU32 data 0 = MAGIC_NUMBER →
      (beU32 data 8 = 0 ∨ beU32 data 8 = 1) → data.length < 16 + beU32 data 12 →
      (check_heartbeats st (some (data, addr)) now wp jp ok k).2.2.1.wsjtx_last_packet_time
        = some now ∧
      (check_heartbeats st (some (data, addr)) now wp jp ok k).2.2.1.wsjtx_last_addr
        = some addr ∧
      (wp = true → (check_heartbeats st (some (data, addr)) now wp jp ok k).1 = true)) := by
  refine ⟨?_, ?_, ?_, ?_⟩
  · intro h
    exact check_heartbeats_discard st _ now wp jp ok k
      (processPacket_short st data addr now ok k h)
  · intro hlen hmag
    exact check_heartbeats_discard st _ now wp jp ok k
      (processPacket_badmagic st data addr now ok k (by omega) hmag)
  · intro b0 b1 b2 b3 s0 s1 s2 s3 t0 t1 t2 t3 rest
    rfl
  · intro hlen hmag htyp hover
    have hpfalse : (decide (0 < beU32 data 12)
        && decide (16 + beU32 data 12 ≤ data.length)) = false := by
      have hno : ¬ (16 + beU32 data 12 ≤ data.length) := by omega
      simp [hno]
    have hdec : ¬(((decide (0 < beU32 data 12)
        && decide (16 + beU32 data 12 ≤ data.length)) = true)
        ∧ utf8Decode ((data.drop 16).take (beU32 data 12)) = none) := by
      simp [hpfalse]
    obtain ⟨hfst, htime, haddr⟩ :=
      processPacket_qualifying st data addr now ok k (by omega) hmag hdec htyp
    have hTO : packetTimedOut
        (processPacket st (some (data, addr)) now ok k).2.1.wsjtx_last_packet_time now
          = false := by
      rw [htime]
      unfold packetTimedOut detection_timeout
      simp
    refine ⟨?_, ?_, ?_⟩
    · rw [(check_heartbeats_state_eq st _ now wp jp ok k).1]
      exact htime
    · rw [(check_heartbeats_state_eq st _ now wp jp ok k).1]
      exact haddr
    · intro hwp
      unfold check_heartbeats
      dsimp only
      rw [hwp, if_neg (by simp : ¬¬(true = true)), hTO,
        if_neg (by simp : ¬(false = true))]
      exact hfst

/-- C4 witness: the amended theorem applied to a 3-byte datagram, which
is silently discarded. -/
theorem C4_witness :
    check_heartbeats ⟨none, none, none, none, none, false, none⟩ (some ([1, 2, 3], 5)) 0
      true true (fun _ => true) 0
      = (false, true, ⟨none, none, none, none, none, false, none⟩, [], 0) :=
  (C4_decode_discard_spec ⟨none, none, none, none, none, false, none⟩ [1, 2, 3] 5 0 true true
    (fun _ => true) 0).1 (by decide)

theorem send_wsjtx_addressable_ok (st : CommState) (grid : String) (ok : ℕ → Bool) (k : ℕ)
    (hid : truthyOptStr st.wsjtx_id = true) (haddr : st.wsjtx_last_addr ≠ none)
    (hok : ok k = true) :
    send_wsjtx_grid_update st grid ok k =
      (true, { st with wsjtx_last_grid := some grid }, [Event.wsjtxSend grid true], k + 1) := by
  unfold send_wsjtx_grid_update
  rw [if_neg (not_or.mpr ⟨not_not_intro hid, haddr⟩), if_pos hok]

theorem send_wsjtx_addressable_fail (st : CommState) (grid : String) (ok : ℕ → Bool) (k : ℕ)
    (hid : truthyOptStr st.wsjtx_id = true) (haddr : st.wsjtx_last_addr ≠ none)
    (hok : ok k = false) :
    send_wsjtx_grid_update st grid ok k = (false, st, [Event.wsjtxSend grid false], k + 1) := by
  unfold send_wsjtx_grid_update
  rw [if_neg (not_or.mpr ⟨not_not_intro hid, haddr⟩), if_neg (by simp [hok])]

theorem send_js8call_ok (st : CommState) (grid : String) (ok : ℕ → Bool) (k : ℕ)
    (hok : ok k = true) :
    send_js8call_grid_update st grid ok k =
      (true, { st with js8call_last_grid := some grid }, [Event.js8Send grid true], k + 1) := by
  unfold send_js8call_grid_update
  rw [if_pos hok]

theorem send_js8call_fail (st : CommState) (grid : String) (ok : ℕ → Bool) (k : ℕ)
    (hok : ok k = false) :
    send_js8call_grid_update st grid ok k
      = (false, st, [Event.js8Send grid false], k + 1) := by
  unfold send_js8call_grid_update
  rw [if_neg (by simp [hok])]

/-- Properties of the WSJT-X retry loop with an addressable endpoint:
at most fuel attempts; exactly fuel when every attempt fails; stop right
after the first success; every sleep is the fixed retry interval; the
number of sleeps is one less than the number of attempts; and at least
one attempt is made when fuel is positive. -/
theorem wsjtxRetry_spec (grid : String) (ok : ℕ → Bool) (ri : ℚ) (fuel : ℕ) :
    ∀ (st : CommState) (k : ℕ), truthyOptStr st.wsjtx_id = true →
      st.wsjtx_last_addr ≠ none →
      countWsjtxSends
          (retryGo (fun s j => send_wsjtx_grid_update s grid ok j) ri fuel st k).2.1 ≤ fuel ∧
      ((∀ j, j < fuel → ok (k + j) = false) →
        countWsjtxSends
          (retryGo (fun s j => send_wsjtx_grid_update s grid ok j) ri fuel st k).2.1 = fuel) ∧
      (∀ j, j < fuel → ok (k + j) = true → (∀ i, i < j → ok (k + i) = false) →
        countWsjtxSends
          (retryGo (fun s j => send_wsjtx_grid_update s grid ok j) ri fuel st k).2.1
            = j + 1) ∧
      (∀ q, Event.sleep q ∈
          (retryGo (fun s j => send_wsjtx_grid_update s grid ok j) ri fuel st k).2.1 →
        q = ri) ∧
      countSleeps (retryGo (fun s j => send_wsjtx_grid_update s grid ok j) ri fuel st k).2.1
        = countWsjtxSends
            (retryGo (fun s j => send_wsjtx_grid_update s grid ok j) ri fuel st k).2.1 - 1 ∧
      (1 ≤ fuel → 1 ≤ countWsjtxSends
        (retryGo (fun s j => send_wsjtx_grid_update s grid ok j) ri fuel st k).2.1) := by
  induction fuel with
  | zero =>
    intro st k hid haddr
    refine ⟨by simp [retryGo, countWsjtxSends], fun _ => by simp [retryGo, countWsjtxSends],
      fun j hj => absurd hj (by omega), fun q hq => absurd hq (by simp [retryGo]),
      by simp [retryGo, countWsjtxSends, countSleeps], fun h => absurd h (by omega)⟩
  | succ n ih =>
    intro st k hid haddr
    cases hok : ok k with
    | true =>
      have hR : (retryGo (fun s j => send_wsjtx_grid_update s grid ok j) ri (n+1) st k).2.1
          = [Event.wsjtxSend grid true] := by
        simp only [retryGo]
        rw [send_wsjtx_addressable_ok st grid ok k hid haddr hok]
        simp
      have hcount : countWsjtxSends
          (retryGo (fun s j => send_wsjtx_grid_update s grid ok j) ri (n+1) st k).2.1 = 1 := by
        rw [hR]
        simp [countWsjtxSends, List.countP_cons, isWsjtxSendEv]
      refine ⟨by omega, ?_, ?_, ?_, ?_, fun _ => by omega⟩
      · intro hall
        have h0 := hall 0 (by omega)
        rw [Nat.add_zero, hok] at h0
        exact absurd h0 (by simp)
      · intro j hj hjt hjf
        cases j with
        | zero => rw [hcount]
        | succ j' =>
          have h0 := hjf 0 (by omega)
          rw [Nat.add_zero, hok] at h0
          exact absurd h0 (by simp)
      · intro q hq
        rw [hR] at hq
        simp at hq
      · rw [hR]
        simp [countWsjtxSends, countSleeps, List.countP_cons, isWsjtxSendEv, isSleepEv]
    | false =>
      cases n with
      | zero =>
        have hR : (retryGo (fun s j => send_wsjtx_grid_update s grid ok j) ri (0+1) st k).2.1
            = [Event.wsjtxSend grid false] := by
          simp only [retryGo]
          rw [send_wsjtx_addressable_fail st grid ok k hid haddr hok]
          simp
        have hcount : countWsjtxSends
            (retryGo (fun s j => send_wsjtx_grid_update s grid ok j) ri (0+1) st k).2.1 = 1 := by
          rw [hR]
          simp [countWsjtxSends, List.countP_cons, isWsjtxSendEv]
        refine ⟨by omega, fun _ => hcount, ?_, ?_, ?_, fun _ => by omega⟩
        · intro j hj hjt hjf
          cases j with
          | zero =>
            rw [Nat.add_zero, hok] at hjt
            exact absurd hjt (by simp)
          | succ j' => exact absurd hj (by omega)
        · intro q hq
          rw [hR] at hq
          simp at hq
        · rw [hR]
          simp [countWsjtxSends, countSleeps, List.countP_cons, isWsjtxSendEv, isSleepEv]
      | succ m =>
        have hR : (retryGo (fun s j => send_wsjtx_grid_update s grid ok j) ri (m+1+1) st k).2.1
            = Event.wsjtxSend grid false :: Event.sleep ri ::
              (retryGo (fun s j => send_wsjtx_grid_update s grid ok j) ri (m+1) st
                (k+1)).2.1 := by
          conv =>
            lhs
            rw [retryGo]
          rw [send_wsjtx_addressable_fail st grid ok k hid haddr hok]
          dsimp only
          rw [if_neg (by simp : ¬(false = true)), if_neg (by omega : ¬ (m+1) = 0)]
          simp
        obtain ⟨ih1, ih2, ih3, ih4, ih5, ih6⟩ := ih st (k+1) hid haddr
        have hcw : countWsjtxSends
            (retryGo (fun s j => send_wsjtx_grid_update s grid ok j) ri (m+1+1) st k).2.1
            = countWsjtxSends (retryGo (fun s j => send_wsjtx_grid_update s grid ok j) ri
                (m+1) st (k+1)).2.1 + 1 := by
          rw [hR]
          simp [countWsjtxSends, List.countP_cons, isWsjtxSendEv, isSleepEv]
        have hcs : countSleeps
            (retryGo (fun s j => send_wsjtx_grid_update s grid ok j) ri (m+1+1) st k).2.1
            = countSleeps (retryGo (fun s j => send_wsjtx_grid_update s grid ok j) ri
                (m+1) st (k+1)).2.1 + 1 := by
          rw [hR]
          simp [countSleeps, List.countP_cons, isWsjtxSendEv, isSleepEv]
        refine ⟨by omega, ?_, ?_, ?_, ?_, fun _ => by omega⟩
        · intro hall
          have hall' : ∀ j, j < m + 1 → ok (k + 1 + j) = false := by
            intro j hj
            have := hall (j + 1) (by omega)
            rwa [show k + (j + 1) = k + 1 + j by omega] at this
          rw [hcw, ih2 hall']
        · intro j hj hjt hjf
          cases j with
          | zero =>
            rw [Nat.add_zero, hok] at hjt
            exact absurd hjt (by simp)
          | succ j' =>
            have hjt' : ok (k + 1 + j') = true := by
              rwa [show k + 1 + j' = k + (j' + 1) by omega]
            have hjf' : ∀ i, i < j' → ok (k + 1 + i) = false := by
              intro i hi
              have := hjf (i + 1) (by omega)
              rwa [show k + (i + 1) = k + 1 + i by omega] at this
            rw [hcw, ih3 j' (by omega) hjt' hjf']
        · intro q hq
          rw [hR] at hq
          rcases List.mem_cons.mp hq with h1 | h2
          · exact absurd h1 (by simp)
          · rcases List.mem_cons.mp h2 with h3 | h4
            · exact (Event.sleep.injEq q ri).mp h3
            · exact ih4 q h4
        · have hge := ih6 (by omega)
          omega

/-- Properties of the JS8-Call retry loop (always addressable):
at most fuel attempts; exactly fuel when every attempt fails; stop right
after the first success; every sleep is the fixed retry interval; the
number of sleeps is one less than the number of attempts; and at least
one attempt is made when fuel is positive. -/
theorem js8Retry_spec (grid : String) (ok : ℕ → Bool) (ri : ℚ) (fuel : ℕ) :
    ∀ (st : CommState) (k : ℕ),
      countJs8Sends
          (retryGo (fun s j => send_js8call_grid_update s grid ok j) ri fuel st k).2.1 ≤ fuel ∧
      ((∀ j, j < fuel → ok (k + j) = false) →
        countJs8Sends
          (retryGo (fun s j => send_js8call_grid_update s grid ok j) ri fuel st k).2.1 = fuel) ∧
      (∀ j, j < fuel → ok (k + j) = true → (∀ i, i < j → ok (k + i) = false) →
        countJs8Sends
          (retryGo (fun s j => send_js8call_grid_update s grid ok j) ri fuel st k).2.1
            = j + 1) ∧
      (∀ q, Event.sleep q ∈
          (retryGo (fun s j => send_js8call_grid_update s grid ok j) ri fuel st k).2.1 →
        q = ri) ∧
      countSleeps (retryGo (fun s j => send_js8call_grid_update s grid ok j) ri fuel st k).2.1
        = countJs8Sends
            (retryGo (fun s j => send_js8call_grid_update s grid ok j) ri fuel st k).2.1 - 1 ∧
      (1 ≤ fuel → 1 ≤ countJs8Sends
        (retryGo (fun s j => send_js8call_grid_update s grid ok j) ri fuel st k).2.1) := by
  induction fuel with
  | zero =>
    intro st k
    refine ⟨by simp [retryGo, countJs8Sends], fun _ => by simp [retryGo, countJs8Sends],
      fun j hj => absurd hj (by omega), fun q hq => absurd hq (by simp [retryGo]),
      by simp [retryGo, countJs8Sends, countSleeps], fun h => absurd h (by omega)⟩
  | succ n ih =>
    intro st k
    cases hok : ok k with
    | true =>
      have hR : (retryGo (fun s j => send_js8call_grid_update s grid ok j) ri (n+1) st k).2.1
          = [Event.js8Send grid true] := by
        simp only [retryGo]
        rw [send_js8call_ok st grid ok k hok]
        simp
      have hcount : countJs8Sends
          (retryGo (fun s j => send_js8call_grid_update s grid ok j) ri (n+1) st k).2.1 = 1 := by
        rw [hR]
        simp [countJs8Sends, List.countP_cons, isJs8SendEv]
      refine ⟨by omega, ?_, ?_, ?_, ?_, fun _ => by omega⟩
      · intro hall
        have h0 := hall 0 (by omega)
        rw [Nat.add_zero, hok] at h0
        exact absurd h0 (by simp)
      · intro j hj hjt hjf
        cases j with
        | zero => rw [hcount]
        | succ j' =>
          have h0 := hjf 0 (by omega)
          rw [Nat.add_zero, hok] at h0
          exact absurd h0 (by simp)
      · intro q hq
        rw [hR] at hq
        simp at hq
      · rw [hR]
        simp [countJs8Sends, countSleeps, List.countP_cons, isJs8SendEv, isSleepEv]
    | false =>
      cases n with
      | zero =>
        have hR : (retryGo (fun s j => send_js8call_grid_update s grid ok j) ri (0+1) st k).2.1
            = [Event.js8Send grid false] := by
          simp only [retryGo]
          rw [send_js8call_fail st grid ok k hok]
          simp
        have hcount : countJs8Sends
            (retryGo (fun s j => send_js8call_grid_update s grid ok j) ri (0+1) st k).2.1 = 1 := by
          rw [hR]
          simp [countJs8Sends, List.countP_cons, isJs8SendEv]
        refine ⟨by omega, fun _ => hcount, ?_, ?_, ?_, fun _ => by omega⟩
        · intro j hj hjt hjf
          cases j with
          | zero =>
            rw [Nat.add_zero, hok] at hjt
            exact absurd hjt (by simp)
          | succ j' => exact absurd hj (by omega)
        · intro q hq
          rw [hR] at hq
          simp at hq
        · rw [hR]
          simp [countJs8Sends, countSleeps, List.countP_cons, isJs8SendEv, isSleepEv]
      | succ m =>
        have hR : (retryGo (fun s j => send_js8call_grid_update s grid ok j) ri (m+1+1) st k).2.1
            = Event.js8Send grid false :: Event.sleep ri ::
              (retryGo (fun s j => send_js8call_grid_update s grid ok j) ri (m+1) st
                (k+1)).2.1 := by
          conv =>
            lhs
            rw [retryGo]
          rw [send_js8call_fail st grid ok k hok]
          dsimp only
          rw [if_neg (by simp : ¬(false = true)), if_neg (by omega : ¬ (m+1) = 0)]
          simp
        obtain ⟨ih1, ih2, ih3, ih4, ih5, ih6⟩ := ih st (k+1)
        have hcw : countJs8Sends
            (retryGo (fun s j => send_js8call_grid_update s grid ok j) ri (m+1+1) st k).2.1
            = countJs8Sends (retryGo (fun s j => send_js8call_grid_update s grid ok j) ri
                (m+1) st (k+1)).2.1 + 1 := by
          rw [hR]
          simp [countJs8Sends, List.countP_cons, isJs8SendEv, isSleepEv]
        have hcs : countSleeps
            (retryGo (fun s j => send_js8call_grid_update s grid ok j) ri (m+1+1) st k).2.1
            = countSleeps (retryGo (fun s j => send_js8call_grid_update s grid ok j) ri
                (m+1) st (k+1)).2.1 + 1 := by
          rw [hR]
          simp [countSleeps, List.countP_cons, isJs8SendEv, isSleepEv]
        refine ⟨by omega, ?_, ?_, ?_, ?_, fun _ => by omega⟩
        · intro hall
          have hall' : ∀ j, j < m + 1 → ok (k + 1 + j) = false := by
            intro j hj
            have := hall (j + 1) (by omega)
            rwa [show k + (j + 1) = k + 1 + j by omega] at this
          rw [hcw, ih2 hall']
        · intro j hj hjt hjf
          cases j with
          | zero =>
            rw [Nat.add_zero, hok] at hjt
            exact absurd hjt (by simp)
          | succ j' =>
            have hjt' : ok (k + 1 + j') = true := by
              rwa [show k + 1 + j' = k + (j' + 1) by omega]
            have hjf' : ∀ i, i < j' → ok (k + 1 + i) = false := by
              intro i hi
              have := hjf (i + 1) (by omega)
              rwa [show k + (i + 1) = k + 1 + i by omega] at this
            rw [hcw, ih3 j' (by omega) hjt' hjf']
        · intro q hq
          rw [hR] at hq
          rcases List.mem_cons.mp hq with h1 | h2
          · exact absurd h1 (by simp)
          · rcases List.mem_cons.mp h2 with h3 | h4
            · exact (Event.sleep.injEq q ri).mp h3
            · exact ih4 q h4
        · have hge := ih6 (by omega)
          omega

/-- C8: for every grid push with retry (both the WSJT-X and the JS8-Call
helpers), the underlying send is attempted at most maxRetries times with
a fixed retryInterval delay between attempts and no backoff growth (each
sleep equals the configured interval and the number of sleeps is one
less than the number of attempts); the loop stops immediately after the
first successful send; and when every attempt fails it terminates
without raising after exactly maxRetries attempts, doing nothing more in
that invocation. -/
theorem C8_retry_policy (maxR : ℕ) (ri : ℚ) (st : CommState) (grid : String)
    (ok : ℕ → Bool) (k : ℕ) (hid : truthyOptStr st.wsjtx_id = true)
    (haddr : st.wsjtx_last_addr ≠ none) :
    (countWsjtxSends (wsjtxRetryEvents maxR ri st grid ok k) ≤ maxR ∧
      ((∀ j, j < maxR → ok (k + j) = false) →
        countWsjtxSends (wsjtxRetryEvents maxR ri st grid ok k) = maxR) ∧
      (∀ j, j < maxR → ok (k + j) = true → (∀ i, i < j → ok (k + i) = false) →
        countWsjtxSends (wsjtxRetryEvents maxR ri st grid ok k) = j + 1) ∧
      (∀ q, Event.sleep q ∈ wsjtxRetryEvents maxR ri st grid ok k → q = ri) ∧
      countSleeps (wsjtxRetryEvents maxR ri st grid ok k)
        = countWsjtxSends (wsjtxRetryEvents maxR ri st grid ok k) - 1) ∧
    (countJs8Sends (js8RetryEvents maxR ri st grid ok k) ≤ maxR ∧
      ((∀ j, j < maxR → ok (k + j) = false) →
        countJs8Sends (js8RetryEvents maxR ri st grid ok k) = maxR) ∧
      (∀ j, j < maxR → ok (k + j) = true → (∀ i, i < j → ok (k + i) = false) →
        countJs8Sends (js8RetryEvents maxR ri st grid ok k) = j + 1) ∧
      (∀ q, Event.sleep q ∈ js8RetryEvents maxR ri st grid ok k → q = ri) ∧
      countSleeps (js8RetryEvents maxR ri st grid ok k)
        = countJs8Sends (js8RetryEvents maxR ri st grid ok k) - 1) := by
  obtain ⟨w1, w2, w3, w4, w5, -⟩ := wsjtxRetry_spec grid ok ri maxR st k hid haddr
  obtain ⟨j1, j2, j3, j4, j5, -⟩ := js8Retry_spec grid ok ri maxR st k
  exact ⟨⟨w1, w2, w3, w4, w5⟩, ⟨j1, j2, j3, j4, j5⟩⟩

/-- C8 witness: three consecutive failures produce exactly three WSJT-X
send attempts. -/
theorem C8_witness :
    countWsjtxSends (wsjtxRetryEvents 3 5
      ⟨some "WSJT-X", none, none, some 1, none, false, none⟩ "FN31" (fun _ => false) 0) = 3 :=
  ((C8_retry_policy 3 5 ⟨some "WSJT-X", none, none, some 1, none, false, none⟩ "FN31"
    (fun _ => false) 0 (by decide) (by decide)).1).2.1 (fun _ _ => rfl)

/-- A per-attempt invariant on the communicator state is preserved by
the whole retry loop. -/
theorem retryGo_preserves {α : Type} (att : CommState → ℕ → Bool × CommState × List Event × ℕ)
    (ri : ℚ) (f : CommState → α) (hatt : ∀ st k, f (att st k).2.1 = f st) (fuel : ℕ) :
    ∀ (st : CommState) (k : ℕ), f (retryGo att ri fuel st k).1 = f st := by
  induction fuel with
  | zero => intro st k; rfl
  | succ n ih =>
    intro st k
    simp only [retryGo]
    split_ifs with h1 h2
    · exact hatt st k
    · exact hatt st k
    · rw [ih, hatt]

theorem wsjtx_retry_preserves_pending (maxR : ℕ) (ri : ℚ) (st : CommState) (grid : String)
    (ok : ℕ → Bool) (k : ℕ) :
    (_send_wsjtx_grid_update_with_retry maxR ri st grid ok k).1.wsjtx_pending_grid_update
        = st.wsjtx_pending_grid_update ∧
    (_send_wsjtx_grid_update_with_retry maxR ri st grid ok k).1.pending_grid_value
        = st.pending_grid_value :=
  ⟨retryGo_preserves _ ri (fun s => s.wsjtx_pending_grid_update)
      (fun s j => (send_wsjtx_fields s grid ok j).2.2.2.1) maxR st k,
    retryGo_preserves _ ri (fun s => s.pending_grid_value)
      (fun s j => (send_wsjtx_fields s grid ok j).2.2.2.2.1) maxR st k⟩

theorem js8_retry_preserves_pending (maxR : ℕ) (ri : ℚ) (st : CommState) (grid : String)
    (ok : ℕ → Bool) (k : ℕ) :
    (_send_js8call_grid_update_with_retry maxR ri st grid ok k).1.wsjtx_pending_grid_update
        = st.wsjtx_pending_grid_update ∧
    (_send_js8call_grid_update_with_retry maxR ri st grid ok k).1.pending_grid_value
        = st.pending_grid_value :=
  ⟨retryGo_preserves _ ri (fun s => s.wsjtx_pending_grid_update)
      (fun s j => (send_js8call_fields s grid ok j).2.2.2.1) maxR st k,
    retryGo_preserves _ ri (fun s => s.pending_grid_value)
      (fun s j => (send_js8call_fields s grid ok j).2.2.2.2.1) maxR st k⟩

theorem update_grid_squares_preserves_pending (a : AppState) (ok : ℕ → Bool) (k : ℕ) :
    (_update_grid_squares a ok k).1.wsjtx_pending_grid_update
        = a.comm.wsjtx_pending_grid_update ∧
    (_update_grid_squares a ok k).1.pending_grid_value = a.comm.pending_grid_value := by
  unfold _update_grid_squares
  cases hg : a.current_grid with
  | none => exact ⟨rfl, rfl⟩
  | some g =>
    dsimp only
    split_ifs with h1 h2 h3
    · refine ⟨?_, ?_⟩
      · rw [(js8_retry_preserves_pending _ _ _ _ _ _).1,
          (wsjtx_retry_preserves_pending _ _ _ _ _ _).1]
      · rw [(js8_retry_preserves_pending _ _ _ _ _ _).2,
          (wsjtx_retry_preserves_pending _ _ _ _ _ _).2]
    · refine ⟨?_, ?_⟩
      · rw [(wsjtx_retry_preserves_pending _ _ _ _ _ _).1]
      · rw [(wsjtx_retry_preserves_pending _ _ _ _ _ _).2]
    · refine ⟨?_, ?_⟩
      · rw [(js8_retry_preserves_pending _ _ _ _ _ _).1]
      · rw [(js8_retry_preserves_pending _ _ _ _ _ _).2]
    · exact ⟨rfl, rfl⟩

/-- A qualifying heartbeat/status packet with no id field consumes an
armed pending update: the settle sleep and a single send of the stored
grid are emitted, and the flag and value are cleared. -/
theorem processPacket_pending_consumed (st : CommState) (data : List ℕ) (addr : ℕ)
    (now : ℚ) (ok : ℕ → Bool) (k : ℕ) (g : String)
    (hpend : st.wsjtx_pending_grid_update = true) (hv : st.pending_grid_value = some g)
    (hg : g ≠ "") (hid : truthyOptStr st.wsjtx_id = true)
    (hlen : ¬ data.length < 16) (hmag : beU32 data 0 = MAGIC_NUMBER)
    (htyp : beU32 data 8 = 0 ∨ beU32 data 8 = 1) (h12 : beU32 data 12 = 0) :
    (processPacket st (some (data, addr)) now ok k).2.2.1
        = [Event.sleep 2, Event.wsjtxSend g (ok k)] ∧
    (processPacket st (some (data, addr)) now ok k).2.1.wsjtx_pending_grid_update = false ∧
    (processPacket st (some (data, addr)) now ok k).2.1.pending_grid_value = none := by
  have hdec : ¬(((decide (0 < beU32 data 12) && decide (16 + beU32 data 12 ≤ data.length)) = true)
      ∧ utf8Decode ((data.drop 16).take (beU32 data 12)) = none) := by
    simp [h12]
  have harmed := send_pending_armed_spec
    { st with wsjtx_last_addr := some addr, wsjtx_last_packet_time := some now } ok k g
    hv hg hid (by simp)
  unfold processPacket
  dsimp only
  rw [if_neg hlen, if_neg (not_not_intro hmag), if_neg hdec, if_pos htyp]
  rw [if_pos hpend, if_neg (by simp [h12] :
    ¬(beU32 data 8 = 0 ∧ (decide (0 < beU32 data 12)
        && decide (16 + beU32 data 12 ≤ data.length)) = true))]
  exact ⟨harmed.2.2, harmed.1, harmed.2.1⟩

/-- Whatever the outcomes, a JS8-Call retry loop with at least one unit
of fuel emits its first send attempt. -/
theorem js8Retry_first_attempt (grid : String) (ok : ℕ → Bool) (ri : ℚ) (m : ℕ)
    (st : CommState) (k : ℕ) :
    Event.js8Send grid (ok k) ∈
      (retryGo (fun s j => send_js8call_grid_update s grid ok j) ri (m + 1) st k).2.1 := by
  cases hok : ok k with
  | true =>
    simp only [retryGo]
    rw [send_js8call_ok st grid ok k hok]
    simp [hok]
  | false =>
    cases m with
    | zero =>
      simp only [retryGo]
      rw [send_js8call_fail st grid ok k hok]
      simp [hok]
    | succ n =>
      simp only [retryGo]
      rw [send_js8call_fail st grid ok k hok]
      simp [hok]

/-- C5 counterexample: on the very cycle of a WSJT-X transition-to-Live
edge (heartbeat packet received, process running, grid "FN31" known,
no previous detection), the dispatcher does not stay silent: the
pending update is armed, yet _update_grid_squares already sends the
grid once to WSJT-X in that same cycle, because wsjtx_detected is set
before the mismatch check runs. -/
theorem C5_counterexample :
    ((mainLoopIter
        ⟨⟨some "WSJT-X", none, none, none, none, false, none⟩, false, false, false, false,
          some "FN31", 3, 5, 10, 5⟩
        (some ([173, 188, 203, 218, 0, 0, 0, 3, 0, 0, 0, 0, 0, 0, 0, 6,
          87, 83, 74, 84, 45, 88], 9)) 0 true false (fun _ => true)).1.wsjtx_detected
        = true) ∧
    ((mainLoopIter
        ⟨⟨some "WSJT-X", none, none, none, none, false, none⟩, false, false, false, false,
          some "FN31", 3, 5, 10, 5⟩
        (some ([173, 188, 203, 218, 0, 0, 0, 3, 0, 0, 0, 0, 0, 0, 0, 6,
          87, 83, 74, 84, 45, 88], 9)) 0 true false
          (fun _ => true)).1.comm.wsjtx_pending_grid_update = true) ∧
    countWsjtxSends (mainLoopIter
        ⟨⟨some "WSJT-X", none, none, none, none, false, none⟩, false, false, false, false,
          some "FN31", 3, 5, 10, 5⟩
        (some ([173, 188, 203, 218, 0, 0, 0, 3, 0, 0, 0, 0, 0, 0, 0, 6,
          87, 83, 74, 84, 45, 88], 9)) 0 true false (fun _ => true)).2 = 1 := by
  decide

/-- C5 (amended): on a WSJT-X transition-to-Live edge with a current
grid available, the loop body arms the pending update with that grid
(though the same cycle's steady-state mismatch check may already send
the grid once); an armed pending update is consumed by the next
qualifying heartbeat/status packet, emitting the 2-second settle sleep
and exactly one send of the stored grid and clearing the flag and the
value; and on a JS8-Call transition-to-Live edge a send of the current
grid is attempted immediately in the same cycle. -/
theorem C5_pending_update_protocol :
    (∀ (a : AppState) (wr jr : Bool) (ok : ℕ → Bool) (k : ℕ) (g : String),
      a.current_grid = some g → wr = true → a.prev_wsjtx_detected = false →
      (mainLoopBody a wr jr ok k).1.comm.wsjtx_pending_grid_update = true ∧
      (mainLoopBody a wr jr ok k).1.comm.pending_grid_value = some g) ∧
    (∀ (st : CommState) (data : List ℕ) (addr : ℕ) (now : ℚ) (wp jp : Bool)
        (ok : ℕ → Bool) (k : ℕ) (g : String),
      st.wsjtx_pending_grid_update = true → st.pending_grid_value = some g → g ≠ "" →
      truthyOptStr st.wsjtx_id = true → ¬ data.length < 16 →
      beU32 data 0 = MAGIC_NUMBER → (beU32 data 8 = 0 ∨ beU32 data 8 = 1) →
      beU32 data 12 = 0 →
      (check_heartbeats st (some (data, addr)) now wp jp ok k).2.2.2.1
          = [Event.sleep 2, Event.wsjtxSend g (ok k)] ∧
      (check_heartbeats st (some (data, addr)) now wp jp ok k).2.2.1.wsjtx_pending_grid_update
          = false ∧
      (check_heartbeats st (some (data, addr)) now wp jp ok k).2.2.1.pending_grid_value
          = none) ∧
    (∀ (a : AppState) (wr jr : Bool) (ok : ℕ → Bool) (k : ℕ) (g : String),
      a.current_grid = some g → jr = true → a.prev_js8call_detected = false →
      1 ≤ a.max_retries →
      Event.js8Send g (ok k) ∈ (mainLoopBody a wr jr ok k).2.1) := by
  refine ⟨?_, ?_, ?_⟩
  · intro a wr jr ok k g hg hwr hprev
    unfold mainLoopBody
    rw [hg]
    dsimp only
    constructor
    · rw [(update_grid_squares_preserves_pending _ _ _).1]
      dsimp only
      split_ifs with hj hw hw2
      · rw [(js8_retry_preserves_pending _ _ _ _ _ _).1]
      · exact absurd ⟨hwr, hprev⟩ hw
      · rfl
      · exact absurd ⟨hwr, hprev⟩ hw2
    · rw [(update_grid_squares_preserves_pending _ _ _).2]
      dsimp only
      split_ifs with hj hw hw2
      · rw [(js8_retry_preserves_pending _ _ _ _ _ _).2]
      · exact absurd ⟨hwr, hprev⟩ hw
      · rfl
      · exact absurd ⟨hwr, hprev⟩ hw2
  · intro st data addr now wp jp ok k g hpend hv hg hid hlen hmag htyp h12
    obtain ⟨hst, hev, -, -⟩ := check_heartbeats_state_eq st (some (data, addr)) now wp jp ok k
    obtain ⟨p1, p2, p3⟩ := processPacket_pending_consumed st data addr now ok k g
      hpend hv hg hid hlen hmag htyp h12
    rw [hev, hst]
    exact ⟨p1, p2, p3⟩
  · intro a wr jr ok k g hg hjr hprev hmr
    obtain ⟨m, hm⟩ : ∃ m, a.max_retries = m + 1 := ⟨a.max_retries - 1, by omega⟩
    unfold mainLoopBody
    rw [hg]
    dsimp only
    rw [if_pos ⟨hjr, hprev⟩]
    refine List.mem_append_left _ (List.mem_append_left _ ?_)
    unfold _send_js8call_grid_update_with_retry
    rw [hm]
    exact js8Retry_first_attempt g ok a.retry_interval m _ k

/-- C5 witness: consuming an armed pending update ("FN31", truthy id)
on a concrete 16-byte heartbeat packet yields exactly the settle sleep
followed by a single send, per the amended protocol theorem. -/
theorem C5_witness :
    (check_heartbeats ⟨some "WSJT-X", none, none, some 7, none, true, some "FN31"⟩
        (some ([173, 188, 203, 218, 0, 0, 0, 3, 0, 0, 0, 0, 0, 0, 0, 0], 9)) 0 true true
        (fun _ => true) 0).2.2.2.1
      = [Event.sleep 2, Event.wsjtxSend "FN31" true] :=
  (C5_pending_update_protocol.2.1 ⟨some "WSJT-X", none, none, some 7, none, true, some "FN31"⟩
      [173, 188, 203, 218, 0, 0, 0, 3, 0, 0, 0, 0, 0, 0, 0, 0] 9 0 true true (fun _ => true) 0
      "FN31" rfl rfl (by decide) (by decide) (by decide) (by decide) (Or.inl (by decide))
      (by decide)).1
